import Mathlib

/-
Verification of the MXNet-to-ONNX per-opcode lowering engine
(`python/mxnet/contrib/onnx/mx2onnx/_op_translations.py`).

Shallow embedding conventions:
  * Python strings are `String`, string-keyed dictionaries are association
    lists with first-match lookup (Python dicts have unique keys).
  * numpy / Python floats are modelled as `ℚ`.  IEEE rounding of float32 and
    float64 is not modelled (the values exercised by the theorems are exact in
    both systems); IEEE binary16 bit patterns ARE modelled, by `float16Bits`,
    because the source stores half-precision constants via their raw bits.
  * Python exceptions are `Except ConvError`.  A translation rule mutates the
    shared initializer list and may raise, so a rule returns
    `List Initializer × Except ConvError (List OutItem)`: the first component
    is the initializer list at the moment the rule returned or raised.
  * Python list indexing `xs[i]` that can raise IndexError is `pyListIdx`.
-/

namespace OpTrans

/-- Exceptions raised by the translation rules (Python exception classes,
with their message where a theorem needs to distinguish instances). -/
inductive ConvError where
  | attributeError (msg : String)
  | notImplementedError (msg : String)
  | valueError (msg : String)
  | typeError (msg : String)
  | keyError (msg : String)
  | syntaxError (msg : String)
  | assertionError
  | indexError
  | nameError (msg : String)
  /-- A value (IEEE infinity / NaN) that the rational value domain cannot
  represent; no theorem exercises these paths. -/
  | modelLimitation (msg : String)
  deriving DecidableEq, Repr

deriving instance DecidableEq for Except

/-- Typed attribute value of a target (ONNX) node. -/
inductive AttrVal where
  | aInt (i : Int)
  | aFloat (q : ℚ)
  | aInts (l : List Int)
  | aFloats (l : List ℚ)
  | aStr (s : String)
  /-- a tensor-valued attribute (dims, onnx dtype code, values) -/
  | aTensor (dims : List Nat) (dataType : Nat) (vals : List ℚ)
  deriving DecidableEq, Repr

/-- Target IR node (onnx.helper.make_node). -/
structure ONNXNode where
  op_type : String
  inputs : List String
  outputs : List String
  name : String
  attrs : List (String × AttrVal)
  deriving DecidableEq, Repr

/-- Value-info record (onnx.helper.make_tensor_value_info). -/
structure ValueInfo where
  name : String
  data_type : Nat
  dims : List Nat
  deriving DecidableEq, Repr

/-- Named constant tensor appended to the shared initializer list
(onnx.helper.make_tensor). -/
structure Initializer where
  name : String
  data_type : Nat
  dims : List Nat
  vals : List ℚ
  deriving DecidableEq, Repr

/-- An element of the list a translation rule returns: the source rules mix
`make_tensor_value_info` records and computational nodes in one list. -/
inductive OutItem where
  | vi (v : ValueInfo)
  | node (n : ONNXNode)
  deriving DecidableEq, Repr

/-- Source (MXNet) node. -/
structure MxNode where
  name : String
  op : String
  inputs : List (Nat × Nat)
  attrs : List (String × String)
  deriving DecidableEq, Repr

/-- The per-invocation context (`kwargs` threaded to every rule). -/
structure Kwargs where
  proc_nodes : List String
  index_lookup : List Nat
  initializer : List Initializer
  opset_version : Nat
  in_type : Nat
  in_shape : List (List Int)
  idx : Nat
  deriving Repr

/-- ONNX TensorProto dtype codes used by the converter. -/
def TP_FLOAT : Nat := 1
def TP_INT32 : Nat := 6
def TP_INT64 : Nat := 7
def TP_BOOL : Nat := 9
def TP_FLOAT16 : Nat := 10
def TP_DOUBLE : Nat := 11

/-- numpy dtypes that flow through the converter. -/
inductive NPDtype where
  | int32
  | int64
  | float16
  | float32
  | float64
  deriving DecidableEq, Repr

/-- onnx.mapping.NP_TYPE_TO_TENSOR_TYPE -/
def npCode : NPDtype → Nat
  | .int32 => TP_INT32
  | .int64 => TP_INT64
  | .float16 => TP_FLOAT16
  | .float32 => TP_FLOAT
  | .float64 => TP_DOUBLE

/-- onnx.mapping.TENSOR_TYPE_TO_NP_TYPE (the dtype codes in use). -/
def tensorTypeToNp (c : Nat) : Option NPDtype :=
  if c = TP_INT32 then some .int32
  else if c = TP_INT64 then some .int64
  else if c = TP_FLOAT16 then some .float16
  else if c = TP_FLOAT then some .float32
  else if c = TP_DOUBLE then some .float64
  else none

/-- Is the numpy dtype an integer kind (`str(dtype).startswith('int')`)? -/
def npIsInt : NPDtype → Bool
  | .int32 => true
  | .int64 => true
  | _ => false

/-- np.dtype(string) for the dtype names the converter passes around. -/
def npDtypeOfString (s : String) : Option NPDtype :=
  if s = "int32" then some .int32
  else if s = "int64" then some .int64
  else if s = "float16" then some .float16
  else if s = "float32" then some .float32
  else if s = "float64" then some .float64
  else none

/-- Model of np.promote_types restricted to the dtypes the converter
produces.  Equal dtypes promote to themselves; the mixed rows are the numpy
table for these kinds.  (Claims only exercise the equal-dtype diagonal.) -/
def npPromote (a b : NPDtype) : NPDtype :=
  if a = b then a else
  match a, b with
  | .int32, .int64 => .int64
  | .int64, .int32 => .int64
  | .float16, .float32 => .float32
  | .float32, .float16 => .float32
  | .float16, .float64 => .float64
  | .float64, .float16 => .float64
  | .float32, .float64 => .float64
  | .float64, .float32 => .float64
  -- int with float16/float32/float64: numpy widens to a float kind
  | .int32, f => f
  | .int64, f => f
  | f, .int32 => f
  | f, .int64 => f
  -- equal dtypes are caught by the test above; this line keeps the match total
  | f, _ => f

/-- Dictionary lookup on a Python dict modelled as an association list. -/
def attrsGet (attrs : List (String × String)) (k : String) : Option String :=
  (attrs.find? (fun p => p.1 == k)).map (·.2)

/-- `attrs.get(k, d)` with a string default. -/
def attrsGetD (attrs : List (String × String)) (k d : String) : String :=
  (attrsGet attrs k).getD d

/-- Python list indexing `xs[i]` for a natural index (IndexError if out of
range). -/
def pyListIdx {α : Type} (l : List α) (i : Nat) : Except ConvError α :=
  match l.get? i with
  | some x => .ok x
  | none => .error .indexError

/-- Python list indexing with a possibly negative index
(`xs[-1]` is the last element). -/
def pyListIdxI {α : Type} (l : List α) (i : Int) : Except ConvError α :=
  if i < 0 then pyListIdx l (i + l.length).toNat
  else pyListIdx l i.toNat

/-- Strip leading and trailing whitespace (Python `str.strip`), on character
lists so that closed instances evaluate inside the kernel. -/
def trimChars (cs : List Char) : List Char :=
  ((cs.dropWhile Char.isWhitespace).reverse.dropWhile Char.isWhitespace).reverse

/-- Split a character list on commas (Python `str.split(',')`). -/
def splitOnComma : List Char → List (List Char)
  | [] => [[]]
  | c :: rest =>
    match splitOnComma rest with
    | t :: ts => if c = ',' then [] :: (t :: ts) else (c :: t) :: ts
    | [] => [[c]]

/-- Python `str.startswith`. -/
def pyStartsWith (s pre : String) : Bool :=
  s.toList.take pre.toList.length = pre.toList

/-- Digits of a numeral to a natural number. -/
def digitsToNat (cs : List Char) : Nat :=
  cs.foldl (fun acc c => acc * 10 + (c.toNat - '0'.toNat)) 0

/-- Unsigned decimal integer (`int`-style): one or more digits. -/
def parseNatDigits (cs : List Char) : Option Nat :=
  if cs ≠ [] ∧ cs.all Char.isDigit then some (digitsToNat cs) else none

/-- Python `int(s)`: optional sign, digits, surrounding whitespace allowed. -/
def parsePyInt (s : String) : Option Int :=
  match trimChars s.toList with
  | '-' :: rest => (parseNatDigits rest).map (fun n => -(n : Int))
  | '+' :: rest => (parseNatDigits rest).map (fun n => (n : Int))
  | cs => (parseNatDigits cs).map (fun n => (n : Int))

/-- Unsigned decimal: digits, optional point, digits ("12", "12.", "12.5",
".5"). -/
def parseUnsignedFrac (cs : List Char) : Option ℚ :=
  let intPart := cs.takeWhile Char.isDigit
  let rest := cs.drop intPart.length
  match rest with
  | [] => if intPart = [] then none else some ((digitsToNat intPart : ℚ))
  | '.' :: frac =>
    if frac.all Char.isDigit ∧ (intPart ≠ [] ∨ frac ≠ []) then
      some ((digitsToNat intPart : ℚ) + (digitsToNat frac : ℚ) / (10 : ℚ) ^ frac.length)
    else none
  | _ => none

/-- Python `float(s)` restricted to plain decimal numerals (the attribute
strings the graphs carry; exponent notation, `inf` and `nan` are outside the
rational model). -/
def parsePyFloat (s : String) : Option ℚ :=
  match trimChars s.toList with
  | '-' :: rest => (parseUnsignedFrac rest).map (fun q => -q)
  | '+' :: rest => parseUnsignedFrac rest
  | cs => parseUnsignedFrac cs

/-- `np.array([s], dtype=dt)` on an attribute string: integer dtypes accept
only integer numerals, float dtypes accept decimal numerals. -/
def parseNpScalar (s : String) (dt : NPDtype) : Option ℚ :=
  if npIsInt dt then (parsePyInt s).map (fun i => (i : ℚ))
  else parsePyFloat s

/-- Truncation toward zero (Python `int(q)`, numpy float→int cast). -/
def ratTrunc (q : ℚ) : Int :=
  if q ≥ 0 then ⌊q⌋ else -⌊-q⌋

/-- Value of a rational that is known to hold an integer (tensor elements fed
to integer-consuming operator inputs). -/
def qToInt (q : ℚ) : Int := ⌊q⌋

/-- Collect a list of optional values, failing on any `none`. -/
def allSomeList {α : Type} : List (Option α) → Option (List α)
  | [] => some []
  | none :: _ => none
  | some a :: rest => (allSomeList rest).map (a :: ·)

/-- Cast a list of integers to rationals. -/
def intsToRats (l : List Int) : List ℚ := l.map (fun (i : Int) => (i : ℚ))

/-- Integer power of two as a rational (negative exponents allowed). -/
def twoPow (e : Int) : ℚ :=
  if e ≥ 0 then ((2 : ℚ) ^ e.toNat) else ((2 : ℚ) ^ (-e).toNat)⁻¹

/-- Round to nearest integer, ties to even (IEEE default rounding). -/
def roundHalfEven (q : ℚ) : Int :=
  let f : Int := ⌊q⌋
  let r : ℚ := q - (f : ℚ)
  if r < 1/2 then f
  else if r > 1/2 then f + 1
  else if f % 2 = 0 then f else f + 1

/-- Largest binary exponent `e` with `2^e ≤ a`, searched over the binary16
normal range and clamped below to the subnormal exponent -14.
Requires `0 < a < 2^16`. -/
def f16Exponent (a : ℚ) : Int :=
  match (List.range 30).find? (fun k => twoPow (15 - (k : Int)) ≤ a) with
  | some k => 15 - (k : Int)
  | none => -14

/-- IEEE 754 binary16 encoding of a rational (`np.float16(q).view(np.uint16)`):
sign, 5 exponent bits, 10 mantissa bits, round to nearest even, subnormals,
overflow to infinity.  This models the raw 16-bit pattern the source stores
for half-precision constants. -/
def float16Bits (q : ℚ) : Nat :=
  let sgn : Nat := if q < 0 then 32768 else 0
  let a : ℚ := |q|
  if a = 0 then sgn
  else if (2 : ℚ) ^ (16 : Nat) ≤ a then sgn + 31744  -- overflow: ±inf
  else
    let e : Int := max (f16Exponent a) (-14)
    let m : Int := roundHalfEven (a * twoPow (10 - e))
    if m < 1024 then
      -- subnormal (only reachable with e = -14)
      sgn + m.toNat
    else if m < 2048 then
      sgn + (e + 15).toNat * 1024 + (m - 1024).toNat
    else
      -- mantissa rounded up to the next binade
      if e + 1 > 15 then sgn + 31744
      else sgn + (e + 16).toNat * 1024

/-! ## Helper functions of the source file -/

/-- Characters matched by the class of the tuple regular expression
`\([0-9L|,| ]+\)` in `parse_helper`. -/
def isTupleClassChar (c : Char) : Bool :=
  c.isDigit || c = 'L' || c = '|' || c = ',' || c = ' '

/-- Attempt to match the tuple pattern at the head of `cs`: an opening
parenthesis, one or more class characters, a closing parenthesis.  Returns the
length of the match.  (The class contains no parenthesis, so the greedy match
either reaches the closing parenthesis after the maximal class run or fails.) -/
def tupleMatchAt (cs : List Char) : Option Nat :=
  match cs with
  | '(' :: rest =>
    let body := rest.takeWhile isTupleClassChar
    if body.length ≥ 1 ∧ rest.get? body.length = some ')' then
      some (body.length + 2)
    else none
  | _ => none

/-- `re.search` for the tuple pattern: leftmost match, as (start, end) span. -/
def tupleSearch : List Char → Nat → Option (Nat × Nat)
  | [], _ => none
  | c :: rest, i =>
    match tupleMatchAt (c :: rest) with
    | some len => some (i, i + len)
    | none => tupleSearch rest (i + 1)

/-- Model of Python `eval` on strings that matched the tuple pattern:
a parenthesized comma-separated sequence of decimal numerals (optionally
long-suffixed with `L`, surrounded by spaces); a trailing comma is a
one-tuple; anything else (a `|`, an empty element) is a SyntaxError.
`eval("(5)")` yields the bare number 5, modelled as the one-element list. -/
def pyEvalTuple (s : String) : Except ConvError (List Int) :=
  let cs := s.toList
  let body := (cs.drop 1).take (cs.length - 2)
  let rawToks := splitOnComma body
  let lastEmpty : Bool := match rawToks.getLast? with
    | some t => trimChars t == []
    | none => false
  let toks := if rawToks.length ≥ 2 ∧ lastEmpty then
      rawToks.take (rawToks.length - 1)
    else rawToks
  let parseTok : List Char → Option Int := fun t =>
    let u := trimChars t
    let u := if u.getLast? = some 'L' then u.take (u.length - 1) else u
    (parseNatDigits u).map (fun n => (n : Int))
  match allSomeList (toks.map parseTok) with
  | some l => .ok l
  | none => .error (.syntaxError s)

/-- Source `parse_helper(attrs, attrs_name, alt_value)`: parse a dimension
tuple attribute.  Returns the parsed tuple when the whole string matches the
tuple regular expression, raises AttributeError when the pattern matches only
a proper substring, and returns `alt_value` when the key is absent — or when
the pattern finds no match at all in the value. -/
def parse_helper (attrs : List (String × String)) (attrs_name : String)
    (alt_value : Option (List Int)) : Except ConvError (Option (List Int)) :=
  if attrs = [] then .ok alt_value
  else
    match attrsGet attrs attrs_name with
    | none => .ok alt_value
    | some attrs_str =>
      match tupleSearch attrs_str.toList 0 with
      | some span =>
        if span = (0, attrs_str.length) then
          (pyEvalTuple attrs_str).map some
        else
          .error (.attributeError
            ("Malformed " ++ attrs_name ++ " dimensions: " ++ attrs_str))
      | none => .ok alt_value

/-- One step of the `transform_padding` loop: even positions are written at
the running start cursor, odd positions at the running end cursor. -/
def tpStep (pad_width : List Int) (st : List Int × Nat × Nat) (idx : Nat) :
    List Int × Nat × Nat :=
  let (out, s, e) := st
  if idx % 2 = 0 then (out.set s (pad_width.getD idx 0), s + 1, e)
  else (out.set e (pad_width.getD idx 0), s, e + 1)

/-- Source `transform_padding(pad_width)`: convert MXNet interleaved
(begin, end) padding into ONNX (all begins, then all ends) layout. -/
def transform_padding (pad_width : List Int) : List Int :=
  let num_pad_values := pad_width.length
  let onnx_pad_width := List.replicate num_pad_values (0 : Int)
  ((List.range num_pad_values).foldl (tpStep pad_width)
    (onnx_pad_width, 0, num_pad_values / 2)).1

/-- Per-element cleanup of `convert_string_to_list`: strip whitespace and the
characters `(`, `)`, `L`, `[`, `]`. -/
def cslClean (s : List Char) : List Char :=
  (trimChars s).filter
    (fun c => !(c = '(' ∨ c = ')' ∨ c = 'L' ∨ c = '[' ∨ c = ']'))

/-- Source `convert_string_to_list(string_val)`: split on commas; `"None"`
becomes an explicit null element, empty elements are skipped, everything else
must be an integer numeral (Python `int(val)` raises ValueError otherwise). -/
def convert_string_to_list (string_val : String) :
    Except ConvError (List (Option Int)) :=
  let process : List Char → Except ConvError (Option (Option Int)) := fun v =>
    let v := cslClean v
    if v = "None".toList then .ok (some none)
    else if v = [] then .ok none
    else match parsePyInt (String.mk v) with
      | some i => .ok (some (some i))
      | none => .error (.valueError (String.mk v))
  (splitOnComma string_val.toList).foldr
    (fun v acc => do
      let x ← process v
      let rest ← acc
      match x with
      | some el => pure (el :: rest)
      | none => pure rest)
    (.ok [])

/-- Source `get_boolean_attribute_value(attrs, attr_name)`:
1 iff the value is exactly "True" or "1". -/
def get_boolean_attribute_value (attrs : List (String × String))
    (attr_name : String) : Nat :=
  match attrsGet attrs attr_name with
  | some v => if v = "True" ∨ v = "1" then 1 else 0
  | none => 0

/-- Source `get_inputs(node, kwargs)`: the node's name, its inputs resolved to
the names of already-processed target nodes, and its attribute dictionary.
(A well-formed context resolves every reference; out-of-range references
resolve to the empty name.) -/
def get_inputs (node : MxNode) (kwargs : Kwargs) :
    String × List String × List (String × String) :=
  (node.name,
   node.inputs.map (fun ip =>
     kwargs.proc_nodes.getD (kwargs.index_lookup.getD ip.1 0) ""),
   node.attrs)

/-- The resolved input names of a node (second component of `get_inputs`). -/
def resolvedInputs (node : MxNode) (kwargs : Kwargs) : List String :=
  (get_inputs node kwargs).2.1

/-- onnx.helper.make_node. -/
def mkNode (op_type : String) (inputs outputs : List String) (name : String)
    (attrs : List (String × AttrVal)) : ONNXNode :=
  ⟨op_type, inputs, outputs, name, attrs⟩

/-- Source `create_basic_op_node(op_name, node, kwargs)`: a single node of the
given op_type with the resolved inputs and the node's own name as output. -/
def create_basic_op_node (op_name : String) (node : MxNode) (kwargs : Kwargs) :
    List OutItem :=
  let (name, input_nodes, _) := get_inputs node kwargs
  [.node (mkNode op_name input_nodes [name] name [])]

/-- Source `create_const_scalar_node(input_name, value, kwargs)`: append a
zero-rank constant to the initializer list and return its value-info record.
The numpy value is modelled as (rational value, dtype). -/
def create_const_scalar_node (input_name : String) (value : ℚ) (dt : NPDtype)
    (initList : List Initializer) : OutItem × List Initializer :=
  (.vi ⟨input_name, npCode dt, []⟩,
   initList ++ [⟨input_name, npCode dt, [], [value]⟩])

/-- Source `create_const_node(input_name, value, kwargs)`: like
`create_const_scalar_node` for an array value with a shape. -/
def create_const_node (input_name : String) (dims : List Nat) (vals : List ℚ)
    (dt : NPDtype) (initList : List Initializer) : OutItem × List Initializer :=
  (.vi ⟨input_name, npCode dt, dims⟩,
   initList ++ [⟨input_name, npCode dt, dims, vals⟩])

/-- Source `create_tensor(tensor_list, tensor_name, initializer, dtype)`:
append a one-dimensional constant.  For the float16 dtype the stored values
are the underlying 16-bit patterns viewed as unsigned integers
(`tensor_np.view(dtype=np.uint16)`); for the other dtypes the given values are
stored as they are. -/
def create_tensor (tensor_list : List ℚ) (tensor_name : String)
    (initList : List Initializer) (dtype : NPDtype) :
    OutItem × List Initializer :=
  let data_type := npCode dtype
  let dims := [tensor_list.length]
  let vals := if dtype = .float16 then
      tensor_list.map (fun q => ((float16Bits q : Nat) : ℚ))
    else tensor_list
  (.vi ⟨tensor_name, data_type, dims⟩,
   initList ++ [⟨tensor_name, data_type, dims, vals⟩])

/-- Source `create_helper_trans_node(node_name, input_node)`: the extra
Transpose node of the dot rule. -/
def create_helper_trans_node (node_name : String) (input_node : String) :
    ONNXNode :=
  mkNode "Transpose" [input_node] [node_name] node_name []

/-! ## Translation rules

A rule returns the initializer list as it stands when the rule returns or
raises, together with the returned item list or the raised exception. -/

/-- Result type of a translation rule. -/
abbrev RuleResult := List Initializer × Except ConvError (List OutItem)

/-- The version-requirement message shared by the opset-11 gated rules. -/
def opset11Msg : String :=
  "ONNX opset 11 or greater is required to export this operator"

/-- Integer attribute with an integer default (`int(attrs.get(k, d))`). -/
def pyIntAttrD (attrs : List (String × String)) (k : String) (d : Int) :
    Except ConvError Int :=
  match attrsGet attrs k with
  | none => .ok d
  | some s =>
    match parsePyInt s with
    | some i => .ok i
    | none => .error (.valueError s)

/-- Float attribute with a float default (`float(attrs.get(k, d))`). -/
def pyFloatAttrD (attrs : List (String × String)) (k : String) (d : ℚ) :
    Except ConvError ℚ :=
  match attrsGet attrs k with
  | none => .ok d
  | some s =>
    match parsePyFloat s with
    | some q => .ok q
    | none => .error (.valueError s)

/-- `v ** s` for a numpy scalar exponent.  Integer exponents are exact in the
rational model; a fractional exponent has no rational value and is mapped to
0 (no claim exercises fractional powers). -/
def qpow (v s : ℚ) : ℚ :=
  if s.den = 1 then
    if 0 ≤ s.num then v ^ s.num.toNat else (v ^ (-s.num).toNat)⁻¹
  else 0

/-- The in-place constant folding of `scalar_op_helper`: elementwise combine
the resolved constant array with the literal scalar.  The reversed-operand
variants are recognized by the NODE NAME carrying the `_rminusscalar` /
`_rdivscalar` marker.  An op name outside the five handled ones leaves
`new_initializer` unbound in the source (a NameError), modelled as `none`. -/
def scalarFold (op_name name : String) (sv : ℚ) (arr : List ℚ) :
    Option (List ℚ) :=
  if op_name = "Mul" then some (arr.map (· * sv))
  else if op_name = "Sub" then
    some (if pyStartsWith name "_rminusscalar" then arr.map (fun v => sv - v)
          else arr.map (fun v => v - sv))
  else if op_name = "Add" then some (arr.map (· + sv))
  else if op_name = "Div" then
    some (if pyStartsWith name "_rdivscalar" then arr.map (fun v => sv / v)
          else arr.map (fun v => v / sv))
  else if op_name = "Pow" then some (arr.map (fun v => qpow v sv))
  else none

/-- numpy result dtype of the fold: true division of two integer arrays is
float64, everything else promotes. -/
def scalarResultDType (op_name : String) (a b : NPDtype) : NPDtype :=
  if op_name = "Div" ∧ npIsInt a ∧ npIsInt b then .float64
  else npPromote a b

/-- Source `scalar_op_helper(node, op_name, **kwargs)`: if the single tensor
input resolves to a name present in the initializer list, fold the scalar
operation into one new initializer and return no computational node;
otherwise materialize the scalar as a fresh initializer and return one binary
node referencing it. -/
def scalar_op_helper (node : MxNode) (op_name : String) (kwargs : Kwargs) :
    RuleResult :=
  let (name, input_nodes, attrs) := get_inputs node kwargs
  let input_type := kwargs.in_type
  match tensorTypeToNp input_type with
  | none => (kwargs.initializer, .error (.keyError "TENSOR_TYPE_TO_NP_TYPE"))
  | some npdt =>
    match parseNpScalar (attrsGetD attrs "scalar" "1") npdt with
    | none => (kwargs.initializer, .error (.valueError "scalar"))
    | some sv =>
      match input_nodes.get? 0 with
      | none => (kwargs.initializer, .error .indexError)
      | some inp =>
        match kwargs.initializer.find? (fun i => i.name == inp) with
        | some i =>
          match tensorTypeToNp i.data_type with
          | none => (kwargs.initializer, .error (.keyError "to_array dtype"))
          | some idt =>
            match scalarFold op_name name sv i.vals with
            | none => (kwargs.initializer, .error (.nameError "new_initializer"))
            | some newVals =>
              let rdt := npCode (scalarResultDType op_name idt npdt)
              let new_a_node := inp ++ toString kwargs.idx
              (kwargs.initializer ++ [⟨new_a_node, rdt, i.dims, newVals⟩],
               .ok [.vi ⟨new_a_node, rdt, i.dims⟩])
        | none =>
          let scalar_op_name := "scalar_op" ++ toString kwargs.idx
          (kwargs.initializer ++ [⟨scalar_op_name, input_type, [1], [sv]⟩],
           .ok [.vi ⟨scalar_op_name, input_type, [1]⟩,
                .node (mkNode op_name [inp, scalar_op_name] [name] name [])])

/-- Rule for `_mul_scalar`. -/
def convert_mul_scalar (node : MxNode) (kwargs : Kwargs) : RuleResult :=
  scalar_op_helper node "Mul" kwargs

/-- Rule for `_minus_scalar`. -/
def convert_minus_scalar (node : MxNode) (kwargs : Kwargs) : RuleResult :=
  scalar_op_helper node "Sub" kwargs

/-- Rule for `_rminus_scalar`. -/
def convert_rminus_scalar (node : MxNode) (kwargs : Kwargs) : RuleResult :=
  scalar_op_helper node "Sub" kwargs

/-- Rule for `_plus_scalar`. -/
def convert_add_scalar (node : MxNode) (kwargs : Kwargs) : RuleResult :=
  scalar_op_helper node "Add" kwargs

/-- Rule for `_div_scalar`. -/
def convert_div_scalar (node : MxNode) (kwargs : Kwargs) : RuleResult :=
  scalar_op_helper node "Div" kwargs

/-- Rule for `_rdiv_scalar`. -/
def convert_rdiv_scalar (node : MxNode) (kwargs : Kwargs) : RuleResult :=
  scalar_op_helper node "Div" kwargs

/-- Rule for `_power_scalar`. -/
def convert_pow_scalar (node : MxNode) (kwargs : Kwargs) : RuleResult :=
  scalar_op_helper node "Pow" kwargs

/-- Source `convert_pad(node, **kwargs)`: below opset 11 the pads and the
constant value are typed node attributes; from opset 11 they are extra
constant-tensor inputs backed by fresh initializers. -/
def convert_pad (node : MxNode) (kwargs : Kwargs) : RuleResult :=
  let opset_version := kwargs.opset_version
  let (name, input_nodes, attrs) := get_inputs node kwargs
  match attrsGet attrs "pad_width" with
  | none => (kwargs.initializer, .error (.attributeError "pad_width"))
  | some pws =>
    match convert_string_to_list pws with
    | .error e => (kwargs.initializer, .error e)
    | .ok mxl =>
      match allSomeList mxl with
      | none => (kwargs.initializer, .error (.typeError "pad_width"))
      | some mxnet_pad_width =>
        let onnx_pad_width := transform_padding mxnet_pad_width
        match attrsGet attrs "mode" with
        | none => (kwargs.initializer, .error (.valueError "mode"))
        | some pad_mode =>
          match (match attrsGet attrs "constant_value" with
                 | none => some (0 : ℚ)
                 | some s => parsePyFloat s) with
          | none => (kwargs.initializer, .error (.valueError "constant_value"))
          | some pad_value =>
            if opset_version ≥ 11 then
              let (viPads, inits1) := create_const_node (name ++ "_pads")
                [onnx_pad_width.length] (intsToRats onnx_pad_width)
                .int64 kwargs.initializer
              if pad_mode = "constant" then
                let (viC, inits2) := create_const_scalar_node (name ++ "_const")
                  pad_value .float32 inits1
                match input_nodes.get? 0 with
                | none => (inits2, .error .indexError)
                | some input0 =>
                  (inits2, .ok [viPads, viC,
                    .node (mkNode "Pad"
                      [input0, name ++ "_pads", name ++ "_const"] [name] name
                      [("mode", .aStr pad_mode)])])
              else
                match input_nodes.get? 0 with
                | none => (inits1, .error .indexError)
                | some input0 =>
                  (inits1, .ok [viPads,
                    .node (mkNode "Pad" [input0, name ++ "_pads"] [name] name
                      [("mode", .aStr pad_mode)])])
            else
              if pad_mode = "constant" then
                (kwargs.initializer, .ok [.node (mkNode "Pad" input_nodes [name]
                  name [("mode", .aStr "constant"), ("value", .aFloat pad_value),
                        ("pads", .aInts onnx_pad_width)])])
              else
                (kwargs.initializer, .ok [.node (mkNode "Pad" input_nodes [name]
                  name [("mode", .aStr pad_mode),
                        ("pads", .aInts onnx_pad_width)])])

/-- Item list of `convert_dot` (the source raises before returning anything:
it rebinds its working input list to `[]` before reading the original inputs,
so the first subscript raises IndexError on every path; were it reached, the
final `nodes.appennd(...)` call would raise AttributeError). -/
def convert_dot_items (node : MxNode) (kwargs : Kwargs) :
    Except ConvError (List OutItem) := do
  let (name, _input_nodes, attrs) := get_inputs node kwargs
  let trans_a := get_boolean_attribute_value attrs "transpose_a"
  let trans_b := get_boolean_attribute_value attrs "transpose_b"
  -- source: nodes = []; input_nodes = []      (the rebinding under scrutiny)
  let nodes : List OutItem := []
  let input_nodes : List String := []
  let (nodes, input_nodes) ←
    if trans_a = 1 then do
      let x ← pyListIdx input_nodes 0
      pure (nodes ++ [.node (create_helper_trans_node (name ++ "_a") x)],
            input_nodes ++ [name ++ "_a"])
    else do
      let x ← pyListIdx input_nodes 0
      pure (nodes, input_nodes ++ [x])
  let (nodes, input_nodes) ←
    if trans_b = 1 then do
      let x ← pyListIdx input_nodes 1
      pure (nodes ++ [.node (create_helper_trans_node (name ++ "_b") x)],
            input_nodes ++ [name ++ "_b"])
    else do
      let x ← pyListIdx input_nodes 1
      pure (nodes, input_nodes ++ [x])
  let _ := nodes
  let _ := input_nodes
  -- nodes.appennd(...): no such list method
  throw (.attributeError "list object has no attribute appennd")

/-- Source `convert_dot(node, **kwargs)` (never touches the initializer
list). -/
def convert_dot (node : MxNode) (kwargs : Kwargs) : RuleResult :=
  (kwargs.initializer, convert_dot_items node kwargs)

/-- Source `convert_l2normalization(node, **kwargs)`: only "channel" mode has
an ONNX counterpart; everything else raises. -/
def convert_l2normalization (node : MxNode) (kwargs : Kwargs) : RuleResult :=
  let (name, input_nodes, attrs) := get_inputs node kwargs
  let mode := attrsGetD attrs "mode" "instance"
  if mode ≠ "channel" then
    (kwargs.initializer, .error (.attributeError
      "L2Normalization: ONNX currently supports channel mode only"))
  else
    (kwargs.initializer, .ok [.node (mkNode "LpNormalization" input_nodes
      [name] name [("axis", .aInt 1)])])

/-- Source `convert_dropout(node, **kwargs)`: below opset 12 the ratio is a
typed node attribute; from opset 12 it is an extra scalar-initializer
input. -/
def convert_dropout (node : MxNode) (kwargs : Kwargs) : RuleResult :=
  let (name, input_nodes, attrs) := get_inputs node kwargs
  let opset_version := kwargs.opset_version
  match (match attrsGet attrs "p" with
         | none => some (1/2 : ℚ)
         | some s => parsePyFloat s) with
  | none => (kwargs.initializer, .error (.valueError "p"))
  | some probability =>
    if opset_version ≥ 12 then
      let (viR, inits1) := create_const_scalar_node (name ++ "_ratio0")
        probability .float32 kwargs.initializer
      match input_nodes.get? 0 with
      | none => (inits1, .error .indexError)
      | some input0 =>
        (inits1, .ok [viR,
          .node (mkNode "Dropout" [input0, name ++ "_ratio0"] [name] name [])])
    else
      (kwargs.initializer, .ok [.node (mkNode "Dropout" input_nodes [name] name
        [("ratio", .aFloat probability)])])

/-- Source `convert_clip(node, **kwargs)`: below opset 11 the bounds are typed
node attributes; from opset 11 they are extra scalar-initializer inputs.
The source defaults absent bounds to ±np.inf, which has no rational
counterpart; the absent-bound paths are modelled as a distinguished error and
are exercised by no claim. -/
def convert_clip (node : MxNode) (kwargs : Kwargs) : RuleResult :=
  let (name, input_nodes, attrs) := get_inputs node kwargs
  let opset_version := kwargs.opset_version
  match attrsGet attrs "a_min" with
  | none => (kwargs.initializer, .error (.modelLimitation "a_min = -inf"))
  | some smin =>
    match parsePyFloat smin with
    | none => (kwargs.initializer, .error (.valueError smin))
    | some a_min =>
      match attrsGet attrs "a_max" with
      | none => (kwargs.initializer, .error (.modelLimitation "a_max = inf"))
      | some smax =>
        match parsePyFloat smax with
        | none => (kwargs.initializer, .error (.valueError smax))
        | some a_max =>
          if opset_version ≥ 11 then
            let (viMin, inits1) := create_const_scalar_node (name ++ "_min")
              a_min .float32 kwargs.initializer
            let (viMax, inits2) := create_const_scalar_node (name ++ "_max")
              a_max .float32 inits1
            match input_nodes.get? 0 with
            | none => (inits2, .error .indexError)
            | some input0 =>
              (inits2, .ok [viMin, viMax,
                .node (mkNode "Clip"
                  [input0, name ++ "_min", name ++ "_max"] [name] name [])])
          else
            (kwargs.initializer, .ok [.node (mkNode "Clip" input_nodes [name]
              name [("min", .aFloat a_min), ("max", .aFloat a_max)])])

/-- Source `convert_slice_channel(node, **kwargs)`: Squeeze for
`squeeze_axis=1, num_outputs=1`, Split (with positional `_output<i>` output
names) for `squeeze_axis=0, num_outputs>1`, otherwise a hard error. -/
def convert_slice_channel (node : MxNode) (kwargs : Kwargs) : RuleResult :=
  let (name, input_nodes, attrs) := get_inputs node kwargs
  match attrsGet attrs "num_outputs" with
  | none => (kwargs.initializer, .error (.typeError "num_outputs"))
  | some sno =>
    match parsePyInt sno with
    | none => (kwargs.initializer, .error (.valueError sno))
    | some num_outputs =>
      match pyIntAttrD attrs "axis" 1 with
      | .error e => (kwargs.initializer, .error e)
      | .ok axis =>
        match pyIntAttrD attrs "squeeze_axis" 0 with
        | .error e => (kwargs.initializer, .error e)
        | .ok squeeze_axis =>
          if squeeze_axis = 1 ∧ num_outputs = 1 then
            (kwargs.initializer, .ok [.node (mkNode "Squeeze" input_nodes
              [name] name [("axes", .aInts [axis])])])
          else if squeeze_axis = 0 ∧ num_outputs > 1 then
            match pyListIdx kwargs.in_shape 0 with
            | .error e => (kwargs.initializer, .error e)
            | .ok in_shape =>
              match pyListIdxI in_shape axis with
              | .error e => (kwargs.initializer, .error e)
              | .ok dim =>
                let split := Int.fdiv dim num_outputs
                (kwargs.initializer, .ok [.node (mkNode "Split" input_nodes
                  ((List.range num_outputs.toNat).map
                    (fun i => name ++ "_output" ++ toString i))
                  name
                  [("axis", .aInt axis),
                   ("split", .aInts (List.replicate num_outputs.toNat split))])])
          else
            (kwargs.initializer, .error (.notImplementedError
              "SliceChannel operator with num_outputs>1 and squeeze_axis true is not implemented."))

/-- Source `convert_topk(node, **kwargs)`: requires `ret_typ == 'both'`;
below opset 10 the count k is a typed node attribute, from opset 10 it is an
extra scalar-initializer input. -/
def convert_topk (node : MxNode) (kwargs : Kwargs) : RuleResult :=
  let (name, input_nodes, attrs) := get_inputs node kwargs
  match pyIntAttrD attrs "axis" (-1) with
  | .error e => (kwargs.initializer, .error e)
  | .ok axis =>
    match pyIntAttrD attrs "k" 1 with
    | .error e => (kwargs.initializer, .error e)
    | .ok k =>
      if attrsGet attrs "ret_typ" = some "both" then
        let outputs := [name, name ++ "_output1"]
        if kwargs.opset_version ≥ 10 then
          let (viK, inits1) := create_const_scalar_node (name ++ "_k")
            (k : ℚ) .int64 kwargs.initializer
          match input_nodes.get? 0 with
          | none => (inits1, .error .indexError)
          | some input0 =>
            (inits1, .ok [viK,
              .node (mkNode "TopK" [input0, name ++ "_k"] outputs name
                [("axis", .aInt axis)])])
        else
          (kwargs.initializer, .ok [.node (mkNode "TopK" input_nodes outputs
            name [("axis", .aInt axis), ("k", .aInt k)])])
      else
        (kwargs.initializer, .error (.notImplementedError
          "ONNX expects both value and indices as output"))

/-- Source `convert_slice(node, **kwargs)`: negative steps are rejected
before any node is emitted; absent or null steps default to 1; None starts
and ends default to 0 and 2^63-1. -/
def convert_slice (node : MxNode) (kwargs : Kwargs) : RuleResult :=
  let (name, input_nodes, attrs) := get_inputs node kwargs
  match attrsGet attrs "begin" with
  | none => (kwargs.initializer, .error (.attributeError "begin"))
  | some sbegin =>
    match convert_string_to_list sbegin with
    | .error e => (kwargs.initializer, .error e)
    | .ok starts =>
      match attrsGet attrs "end" with
      | none => (kwargs.initializer, .error (.attributeError "end"))
      | some send =>
        match convert_string_to_list send with
        | .error e => (kwargs.initializer, .error e)
        | .ok ends =>
          match convert_string_to_list (attrsGetD attrs "step" "[]") with
          | .error e => (kwargs.initializer, .error e)
          | .ok steps0 =>
            if starts.length ≠ ends.length then
              (kwargs.initializer, .error .assertionError)
            else
              let defaulted := steps0.length = 0 ∨
                (steps0.length = 1 ∧ steps0.get? 0 = some none)
              if ¬defaulted ∧ steps0.length ≠ starts.length then
                (kwargs.initializer, .error .assertionError)
              else
                let steps1 := if defaulted then
                    List.replicate starts.length (some (1 : Int))
                  else steps0
                let steps := steps1.map (fun x => x.getD 1)
                if steps.any (· < 0) then
                  (kwargs.initializer, .error (.notImplementedError
                    "slice operator does not support negative steps yet"))
                else
                  let startsI := starts.map (fun x => x.getD 0)
                  let endsI := ends.map (fun x => x.getD (2 ^ 63 - 1))
                  let (v1, inits1) := create_const_scalar_node (name ++ "_0_s")
                    0 .int64 kwargs.initializer
                  let (v2, inits2) := create_const_scalar_node (name ++ "_1_s")
                    1 .int64 inits1
                  let (v3, inits3) := create_const_scalar_node
                    (name ++ "_len_s") (starts.length : ℚ) .int64 inits2
                  let (v4, inits4) := create_tensor
                    (intsToRats startsI) (name ++ "_starts") inits3 .int64
                  let (v5, inits5) := create_tensor
                    (intsToRats endsI) (name ++ "_ends") inits4 .int64
                  let (v6, inits6) := create_tensor
                    (intsToRats steps) (name ++ "_steps") inits5 .int64
                  match input_nodes.get? 0 with
                  | none => (inits6, .error .indexError)
                  | some input0 =>
                    (inits6, .ok [v1, v2, v3,
                      .node (mkNode "Range"
                        [name ++ "_0_s", name ++ "_len_s", name ++ "_1_s"]
                        [name ++ "_axes"] "" []),
                      v4, v5, v6,
                      .node (mkNode "Slice"
                        [input0, name ++ "_starts", name ++ "_ends",
                         name ++ "_axes", name ++ "_steps"] [name] name [])])

/-- Source `convert_contrib_BilinearResize2D(node, **kwargs)`: opset-11 gated
Resize lowering, size mode only. -/
def convert_contrib_BilinearResize2D (node : MxNode) (kwargs : Kwargs) :
    RuleResult :=
  let (name, input_nodes, attrs) := get_inputs node kwargs
  if kwargs.opset_version < 11 then
    (kwargs.initializer, .error (.attributeError opset11Msg))
  else
    match pyIntAttrD attrs "height" 0 with
    | .error e => (kwargs.initializer, .error e)
    | .ok height =>
      match pyIntAttrD attrs "width" 0 with
      | .error e => (kwargs.initializer, .error e)
      | .ok width =>
        match pyFloatAttrD attrs "scale_height" 0 with
        | .error e => (kwargs.initializer, .error e)
        | .ok scale_height =>
          match pyFloatAttrD attrs "scale_width" 0 with
          | .error e => (kwargs.initializer, .error e)
          | .ok scale_width =>
            if height * width = 0 ∧ scale_height * scale_width = 0 then
              (kwargs.initializer, .error (.attributeError
                "height, width or scale_height, scale_width cannot be 0"))
            else if attrsGetD attrs "mode" "size" ≠ "size" then
              (kwargs.initializer, .error (.notImplementedError
                "contrib_BilinearResize2D with mode other than size is not supported"))
            else
              let (vroi, inits1) := create_tensor [] (name ++ "_roi")
                kwargs.initializer .float32
              let resizeAttrs : List (String × AttrVal) :=
                [("mode", .aStr "linear"),
                 ("coordinate_transformation_mode", .aStr "align_corners")]
              if scale_height = 0 then
                let (v0, inits2) := create_tensor [0] (name ++ "_0") inits1
                  .int64
                let (v2, inits3) := create_tensor [2] (name ++ "_2") inits2
                  .int64
                let (vhw, inits4) := create_tensor
                  [(height : ℚ), (width : ℚ)] (name ++ "_h_w") inits3 .int64
                match input_nodes.get? 0 with
                | none => (inits4, .error .indexError)
                | some input0 =>
                  (inits4, .ok [vroi, v0, v2, vhw,
                    .node (mkNode "Shape" [input0] [name ++ "_shape"] "" []),
                    .node (mkNode "Slice"
                      [name ++ "_shape", name ++ "_0", name ++ "_2"]
                      [name ++ "_shape_01"] "" []),
                    .node (mkNode "Concat" [name ++ "_shape_01", name ++ "_h_w"]
                      [name ++ "_new_shape"] "" [("axis", .aInt 0)]),
                    .node (mkNode "Cast" [name ++ "_shape"]
                      [name ++ "_shape_f"] "" [("to", .aInt (TP_FLOAT : Int))]),
                    .node (mkNode "Cast" [name ++ "_new_shape"]
                      [name ++ "_new_shape_f"] ""
                      [("to", .aInt (TP_FLOAT : Int))]),
                    .node (mkNode "Div"
                      [name ++ "_new_shape_f", name ++ "_shape_f"]
                      [name ++ "_scales"] "" []),
                    .node (mkNode "Resize"
                      [input0, name ++ "_roi", name ++ "_scales"] [name] name
                      resizeAttrs)])
              else
                let (vsc, inits2) := create_tensor
                  [1, 1, scale_height, scale_width] (name ++ "_scales") inits1
                  .float32
                match input_nodes.get? 0 with
                | none => (inits2, .error .indexError)
                | some input0 =>
                  (inits2, .ok [vroi, vsc,
                    .node (mkNode "Resize"
                      [input0, name ++ "_roi", name ++ "_scales"] [name] name
                      resizeAttrs)])

/-- The stop value of the arange rule: `np.array([attrs.get('stop')])`.
An absent stop is None, which numpy turns into NaN for float dtypes (outside
the rational model, a distinguished error here) and rejects for integer
dtypes. -/
def arangeStop (attrs : List (String × String)) (npdt : NPDtype) :
    Except ConvError ℚ :=
  match attrsGet attrs "stop" with
  | none => Except.error (if npIsInt npdt then ConvError.typeError "stop"
      else ConvError.modelLimitation "stop = nan")
  | some s =>
    match parseNpScalar s npdt with
    | some q => Except.ok q
    | none => Except.error (ConvError.valueError "stop")

/-- Source `convert_arange(node, **kwargs)`: opset-11 gated Range lowering. -/
def convert_arange (node : MxNode) (kwargs : Kwargs) : RuleResult :=
  let (name, _, attrs) := get_inputs node kwargs
  if kwargs.opset_version < 11 then
    (kwargs.initializer, .error (.attributeError opset11Msg))
  else
    match pyIntAttrD attrs "repeat" 1 with
    | .error e => (kwargs.initializer, .error e)
    | .ok rptCount =>
      if rptCount ≠ 1 then
        (kwargs.initializer, .error (.notImplementedError
          "arange operator with repeat != 1 not yet implemented."))
      else
        match npDtypeOfString (attrsGetD attrs "dtype" "float32") with
        | none => (kwargs.initializer, .error (.typeError "dtype"))
        | some npdt =>
          match parseNpScalar (attrsGetD attrs "start" "0.") npdt with
          | none => (kwargs.initializer, .error (.valueError "start"))
          | some startV =>
            match arangeStop attrs npdt with
            | .error e => (kwargs.initializer, .error e)
            | .ok stopV =>
              match parseNpScalar (attrsGetD attrs "step" "1.") npdt with
              | none => (kwargs.initializer, .error (.valueError "step"))
              | some stepV =>
                let (v1, inits1) := create_const_scalar_node (name ++ "_start")
                  startV npdt kwargs.initializer
                let (v2, inits2) := create_const_scalar_node (name ++ "_stop")
                  stopV npdt inits1
                let (v3, inits3) := create_const_scalar_node (name ++ "_step")
                  stepV npdt inits2
                (inits3, .ok [v1, v2, v3,
                  .node (mkNode "Range"
                    [name ++ "_start", name ++ "_stop", name ++ "_step"]
                    [name] name [])])

/-- Source `convert_arange_like(node, **kwargs)`: opset-11 gated Range +
Reshape lowering of `_contrib_arange_like`, with the constant scalars
appended in source order (start, step, half step, the void shape tensor, and
on the explicit-axis path the axis slice bounds). -/
def convert_arange_like (node : MxNode) (kwargs : Kwargs) : RuleResult :=
  let (name, input_nodes, attrs) := get_inputs node kwargs
  if kwargs.opset_version < 11 then
    (kwargs.initializer, .error (.attributeError opset11Msg))
  else
    match tensorTypeToNp kwargs.in_type with
    | none => (kwargs.initializer, .error (.keyError "TENSOR_TYPE_TO_NP_TYPE"))
    | some npdt =>
      match pyIntAttrD attrs "repeat" 1 with
      | .error e => (kwargs.initializer, .error e)
      | .ok rptCount =>
        if rptCount ≠ 1 then
          (kwargs.initializer, .error (.notImplementedError
            "arange_like operator with repeat != 1 not yet implemented."))
        else
          match parseNpScalar (attrsGetD attrs "start" "0.") npdt with
          | none => (kwargs.initializer, .error (.valueError "start"))
          | some startV =>
            let (v1, inits1) := create_const_scalar_node (name ++ "_start")
              startV npdt kwargs.initializer
            match parseNpScalar (attrsGetD attrs "step" "1.") npdt with
            | none => (inits1, .error (.valueError "step"))
            | some stepV =>
              let (v2, inits2) := create_const_scalar_node (name ++ "_step")
                stepV npdt inits1
              match parsePyFloat (attrsGetD attrs "step" "1.") with
              | none => (inits2, .error (.valueError "step"))
              | some stepF =>
                let halfV : ℚ :=
                  if npIsInt npdt then ((ratTrunc (stepF * (1/2)) : Int) : ℚ)
                  else stepF * (1/2)
                let (v3, inits3) := create_const_scalar_node
                  (name ++ "_half_step") halfV npdt inits2
                let (vv, inits4) := create_tensor [] (name ++ "_void") inits3
                  .float32
                if attrsGetD attrs "axis" "None" = "None" then
                  match input_nodes.get? 0 with
                  | none => (inits4, .error .indexError)
                  | some input0 =>
                    (inits4, .ok [v1, v2, v3, vv,
                      .node (mkNode "Shape" [input0] [name ++ "_shape0_out"]
                        "" []),
                      .node (mkNode "ReduceProd" [name ++ "_shape0_out"]
                        [name ++ "_redprod0_out"] "" []),
                      .node (mkNode "Reshape"
                        [name ++ "_redprod0_out", name ++ "_void"]
                        [name ++ "_reshape0_out"] "" []),
                      .node (mkNode "Cast" [name ++ "_reshape0_out"]
                        [name ++ "_cast0_out"] ""
                        [("to", .aInt (kwargs.in_type : Int))]),
                      .node (mkNode "Mul"
                        [name ++ "_cast0_out", name ++ "_step"]
                        [name ++ "_mul0_out"] "" []),
                      .node (mkNode "Add"
                        [name ++ "_mul0_out", name ++ "_start"]
                        [name ++ "_add1_out"] "" []),
                      .node (mkNode "Sub"
                        [name ++ "_add1_out", name ++ "_half_step"]
                        [name ++ "_sub0_out"] "" []),
                      .node (mkNode "Range"
                        [name ++ "_start", name ++ "_sub0_out",
                         name ++ "_step"] [name ++ "_range0_out"] "" []),
                      .node (mkNode "Reshape"
                        [name ++ "_range0_out", name ++ "_shape0_out"]
                        [name] name [])])
                else
                  match parsePyInt (attrsGetD attrs "axis" "None") with
                  | none => (inits4, .error
                      (.valueError (attrsGetD attrs "axis" "None")))
                  | some axis =>
                    let (va1, inits5) := create_tensor [(axis : ℚ)]
                      (name ++ "_axis_start") inits4 .int64
                    let (va2, inits6) := create_tensor [((axis + 1 : Int) : ℚ)]
                      (name ++ "_axis_end") inits5 .int64
                    match input_nodes.get? 0 with
                    | none => (inits6, .error .indexError)
                    | some input0 =>
                      (inits6, .ok [v1, v2, v3, vv, va1, va2,
                        .node (mkNode "Shape" [input0]
                          [name ++ "_shape0_out"] "" []),
                        .node (mkNode "Slice"
                          [name ++ "_shape0_out", name ++ "_axis_start",
                           name ++ "_axis_end"] [name ++ "_slice0_out"] "" []),
                        .node (mkNode "ReduceProd" [name ++ "_slice0_out"]
                          [name ++ "_reprod0_out"] "" []),
                        .node (mkNode "Reshape"
                          [name ++ "_reprod0_out", name ++ "_void"]
                          [name ++ "_reshape0_out"] "" []),
                        .node (mkNode "Cast" [name ++ "_reshape0_out"]
                          [name ++ "_cast0_out"] ""
                          [("to", .aInt (kwargs.in_type : Int))]),
                        .node (mkNode "Mul"
                          [name ++ "_cast0_out", name ++ "_step"]
                          [name ++ "_mul0_out"] "" []),
                        .node (mkNode "Add"
                          [name ++ "_mul0_out", name ++ "_start"]
                          [name ++ "_add1_out"] "" []),
                        .node (mkNode "Sub"
                          [name ++ "_add1_out", name ++ "_half_step"]
                          [name ++ "_sub0_out"] "" []),
                        .node (mkNode "Range"
                          [name ++ "_start", name ++ "_sub0_out",
                           name ++ "_step"] [name] name [])])

/-- Source `convert_repeat(node, **kwargs)`: opset-11 gated Tile lowering. -/
def convert_repeat (node : MxNode) (kwargs : Kwargs) : RuleResult :=
  let (name, input_nodes, attrs) := get_inputs node kwargs
  if kwargs.opset_version < 11 then
    (kwargs.initializer, .error (.attributeError opset11Msg))
  else
    match pyIntAttrD attrs "repeats" 1 with
    | .error e => (kwargs.initializer, .error e)
    | .ok repeats =>
      let axisS := attrsGetD attrs "axis" "None"
      if repeats ≤ 0 then
        (kwargs.initializer, .error (.notImplementedError
          "repeat operator does not support parameter repeats==0"))
      else if axisS = "None" then
        let (v1, inits1) := create_tensor [(repeats : ℚ)] (name ++ "_rep")
          kwargs.initializer .int64
        let (v2, inits2) := create_tensor [1, (repeats : ℚ)]
          (name ++ "_repeats") inits1 .int64
        match input_nodes.get? 0 with
        | none => (inits2, .error .indexError)
        | some input0 =>
          (inits2, .ok [v1, v2,
            .node (mkNode "Shape" [input0] [name ++ "_shape"] "" []),
            .node (mkNode "ReduceProd" [name ++ "_shape"] [name ++ "_size"]
              "" []),
            .node (mkNode "Reshape" [input0, name ++ "_size"]
              [name ++ "_flat"] "" []),
            .node (mkNode "Unsqueeze" [name ++ "_flat"] [name ++ "_unsqueeze"]
              "" [("axes", .aInts [-1])]),
            .node (mkNode "Tile" [name ++ "_unsqueeze", name ++ "_repeats"]
              [name ++ "_tile"] "" []),
            .node (mkNode "Mul" [name ++ "_size", name ++ "_rep"]
              [name ++ "_new_size"] "" []),
            .node (mkNode "Reshape" [name ++ "_tile", name ++ "_new_size"]
              [name] name [])])
      else
        match parsePyInt axisS with
        | none => (kwargs.initializer, .error (.valueError axisS))
        | some axis =>
          let repeatsM := repeats - 1
          let (v1, inits1) := create_tensor [(repeatsM : ℚ)]
            (name ++ "_repeats") kwargs.initializer .int64
          let (v2, inits2) := create_tensor [1] (name ++ "_1") inits1 .int64
          let (v3, inits3) := create_tensor [0] (name ++ "_0") inits2 .int64
          let (v4, inits4) := create_tensor [] (name ++ "_void") inits3 .int64
          let (v5, inits5) := create_tensor [(axis : ℚ)] (name ++ "_axis")
            inits4 .int64
          match input_nodes.get? 0 with
          | none => (inits5, .error .indexError)
          | some input0 =>
            let head : List OutItem := [v1, v2, v3, v4, v5,
              .node (mkNode "Shape" [input0] [name ++ "_shape"] "" []),
              .node (mkNode "Shape" [name ++ "_shape"] [name ++ "_dim"] "" []),
              .node (mkNode "Reshape" [name ++ "_dim", name ++ "_void"]
                [name ++ "_dim_s"] "" []),
              .node (mkNode "Range"
                [name ++ "_0", name ++ "_dim_s", name ++ "_1"]
                [name ++ "_range"] "" [])]
            let oneHot : List OutItem :=
              if axis < 0 then
                [.node (mkNode "Add" [name ++ "_axis", name ++ "_dim"]
                  [name ++ "_true_axis"] "" []),
                 .node (mkNode "Equal" [name ++ "_range", name ++ "_true_axis"]
                  [name ++ "_one_hot"] "" [])]
              else
                [.node (mkNode "Equal" [name ++ "_range", name ++ "_axis"]
                  [name ++ "_one_hot"] "" [])]
            let mid : List OutItem :=
              [.node (mkNode "Cast" [name ++ "_one_hot"]
                [name ++ "_one_hot_int"] "" [("to", .aInt (TP_INT64 : Int))]),
               .node (mkNode "Mul" [name ++ "_repeats", name ++ "_one_hot_int"]
                [name ++ "_mul"] "" []),
               .node (mkNode "Add" [name ++ "_mul", name ++ "_1"]
                [name ++ "_add"] "" []),
               .node (mkNode "Concat" [name ++ "_1", name ++ "_add"]
                [name ++ "_repeats_tensor"] "" [("axis", .aInt 0)])]
            let unsq : List OutItem :=
              if axis = -1 then
                [.node (mkNode "Concat" [name ++ "_shape", name ++ "_1"]
                  [name ++ "_unsqueeze_shape"] "" [("axis", .aInt 0)]),
                 .node (mkNode "Reshape"
                  [input0, name ++ "_unsqueeze_shape"] [name ++ "_unsqueeze"]
                  "" [])]
              else
                [.node (mkNode "Unsqueeze" [input0] [name ++ "_unsqueeze"] ""
                  [("axes", .aInts [axis + 1])])]
            let tail : List OutItem :=
              [.node (mkNode "Tile"
                [name ++ "_unsqueeze", name ++ "_repeats_tensor"]
                [name ++ "_tile"] "" []),
               .node (mkNode "Mul" [name ++ "_shape", name ++ "_add"]
                [name ++ "_new_shape"] "" []),
               .node (mkNode "Reshape" [name ++ "_tile", name ++ "_new_shape"]
                [name] name [])]
            (inits5, .ok (head ++ oneHot ++ mid ++ unsq ++ tail))

/-- Source `convert_greater_scalar(node, **kwargs)`: the scalar operand is
materialized as a ConstantOfShape value; for an integer input type it is
truncated to an integer, for float16 it is stored as its 16-bit pattern
viewed as uint16. -/
def convert_greater_scalar (node : MxNode) (kwargs : Kwargs) : RuleResult :=
  let (name, input_nodes, attrs) := get_inputs node kwargs
  match attrsGet attrs "scalar" with
  | none => (kwargs.initializer, .error (.typeError "scalar"))
  | some s =>
    match parsePyFloat s with
    | none => (kwargs.initializer, .error (.valueError s))
    | some scalar0 =>
      let input_type := kwargs.in_type
      match tensorTypeToNp input_type with
      | none => (kwargs.initializer, .error (.keyError "TENSOR_TYPE_TO_NP_TYPE"))
      | some dtype =>
        let scalar : ℚ :=
          if npIsInt dtype then ((ratTrunc scalar0 : Int) : ℚ)
          else if dtype = .float16 then ((float16Bits scalar0 : Nat) : ℚ)
          else scalar0
        let tensor_value : AttrVal := .aTensor [1] input_type [scalar]
        match input_nodes.get? 0 with
        | none => (kwargs.initializer, .error .indexError)
        | some input0 =>
          (kwargs.initializer, .ok [
            .node (mkNode "Shape" [input0] [name ++ "_shape"] "" []),
            .node (mkNode "ConstantOfShape" [name ++ "_shape"]
              [name ++ "_rhs"] "" [("value", tensor_value)]),
            .node (mkNode "Greater" [input0, name ++ "_rhs"] [name ++ "_gt"]
              "" []),
            .node (mkNode "Cast" [name ++ "_gt"] [name] name
              [("to", .aInt (input_type : Int))])])

/-- Source `convert_softmax(node, **kwargs)`: plain decomposition for a
single input; for `use_length == "True"` with a per-row valid-length second
input, the masked decomposition whose final division is guarded by a Where
that substitutes 1 exactly where the masked re-summation is zero. -/
def convert_softmax (node : MxNode) (kwargs : Kwargs) : RuleResult :=
  let (name, input_nodes, attrs) := get_inputs node kwargs
  match pyIntAttrD attrs "axis" (-1) with
  | .error e => (kwargs.initializer, .error e)
  | .ok axis =>
    match (match attrsGet attrs "temperature" with
           | none => some (1 : ℚ)
           | some s => if s = "None" then some 1 else parsePyFloat s) with
    | none => (kwargs.initializer, .error (.valueError "temperature"))
    | some temperature =>
      let use_length := attrsGetD attrs "use_length" "None"
      let input_type := kwargs.in_type
      match tensorTypeToNp input_type with
      | none => (kwargs.initializer, .error (.keyError "TENSOR_TYPE_TO_NP_TYPE"))
      | some dtype =>
        match input_nodes.get? 0 with
        | none => (kwargs.initializer, .error .indexError)
        | some data =>
          let (vTmp, inits1) := create_tensor [temperature] (name ++ "_tmp")
            kwargs.initializer dtype
          let prefixItems : List OutItem := [vTmp,
            .node (mkNode "Div" [data, name ++ "_tmp"] [name ++ "_data"] "" []),
            .node (mkNode "Exp" [name ++ "_data"] [name ++ "_exp_out"] "" []),
            .node (mkNode "ReduceSum" [name ++ "_exp_out"]
              [name ++ "_rsum_out"] ""
              [("axes", .aInts [axis]), ("keepdims", .aInt 1)])]
          if input_nodes.length = 1 then
            (inits1, .ok (prefixItems ++
              [.node (mkNode "Div" [name ++ "_exp_out", name ++ "_rsum_out"]
                [name] name [])]))
          else if use_length = "True" then
            match input_nodes.get? 1 with
            | none => (inits1, .error .indexError)
            | some length =>
              let (vAxis, inits2) := create_tensor [(axis : ℚ)]
                (name ++ "_axis") inits1 .int64
              let (vVoid, inits3) := create_tensor [] (name ++ "_void") inits2
                .int64
              let (v0, inits4) := create_tensor [0] (name ++ "_0") inits3
                .int64
              let (v1, inits5) := create_tensor [1] (name ++ "_1") inits4
                .int64
              let (vm1s, inits6) := create_const_scalar_node (name ++ "_-1_s")
                (-1) .int64 inits5
              let (v0s, inits7) := create_const_scalar_node (name ++ "_0_s")
                0 .int64 inits6
              let (v1s, inits8) := create_const_scalar_node (name ++ "_1_s")
                1 .int64 inits7
              (inits8, .ok (prefixItems ++ [vAxis, vVoid, v0, v1, vm1s, v0s, v1s,
                .node (mkNode "Cast" [length] [name ++ "_length"] ""
                  [("to", .aInt (TP_INT64 : Int))]),
                .node (mkNode "Cast" [name ++ "_0"] [name ++ "_0_itype"] ""
                  [("to", .aInt (input_type : Int))]),
                .node (mkNode "Cast" [name ++ "_1"] [name ++ "_1_itype"] ""
                  [("to", .aInt (input_type : Int))]),
                .node (mkNode "Div" [name ++ "_exp_out", name ++ "_rsum_out"]
                  [name ++ "_div1_out"] "" []),
                .node (mkNode "Shape" [data] [name ++ "_shape0_out"] "" []),
                .node (mkNode "Shape" [name ++ "_shape0_out"]
                  [name ++ "_in_dim"] "" []),
                .node (mkNode "Add" [name ++ "_in_dim", name ++ "_axis"]
                  [name ++ "_dim+axis"] "" []),
                .node (mkNode "Less" [name ++ "_axis", name ++ "_0_s"]
                  [name ++ "_less0_out"] "" []),
                .node (mkNode "Where"
                  [name ++ "_less0_out", name ++ "_dim+axis", name ++ "_axis"]
                  [name ++ "_final_axis"] "" []),
                .node (mkNode "Add" [name ++ "_final_axis", name ++ "_1_s"]
                  [name ++ "_final_axis+1"] "" []),
                .node (mkNode "Slice"
                  [name ++ "_shape0_out", name ++ "_final_axis",
                   name ++ "_final_axis+1"] [name ++ "_axis_dim"] "" []),
                .node (mkNode "Reshape"
                  [name ++ "_axis_dim", name ++ "_void"]
                  [name ++ "_axis_dim_s"] "" []),
                .node (mkNode "Range"
                  [name ++ "_0_s", name ++ "_axis_dim_s", name ++ "_1_s"]
                  [name ++ "_range0_out"] "" []),
                .node (mkNode "Reshape" [name ++ "_in_dim", name ++ "_void"]
                  [name ++ "_in_dim_s"] "" []),
                .node (mkNode "Range"
                  [name ++ "_0_s", name ++ "_in_dim_s", name ++ "_1_s"]
                  [name ++ "_range1_out"] "" []),
                .node (mkNode "Equal"
                  [name ++ "_range1_out", name ++ "_final_axis"]
                  [name ++ "_equal_out"] "" []),
                .node (mkNode "Cast" [name ++ "_equal_out"]
                  [name ++ "_one_hot"] "" [("to", .aInt (TP_INT64 : Int))]),
                .node (mkNode "Sub" [name ++ "_axis_dim_s", name ++ "_1_s"]
                  [name ++ "_sub0_out"] "" []),
                .node (mkNode "Mul" [name ++ "_one_hot", name ++ "_sub0_out"]
                  [name ++ "_mul0_out"] "" []),
                .node (mkNode "Add" [name ++ "_mul0_out", name ++ "_1_s"]
                  [name ++ "_add0_out"] "" []),
                .node (mkNode "Reshape"
                  [name ++ "_range0_out", name ++ "_add0_out"]
                  [name ++ "_reshape0_out"] "" []),
                .node (mkNode "Mul" [name ++ "_one_hot", name ++ "_-1_s"]
                  [name ++ "_mul1_out"] "" []),
                .node (mkNode "Add" [name ++ "_mul1_out", name ++ "_1_s"]
                  [name ++ "_add1_out"] "" []),
                .node (mkNode "Sub" [name ++ "_shape0_out", name ++ "_1_s"]
                  [name ++ "_sub1_out"] "" []),
                .node (mkNode "Mul" [name ++ "_add1_out", name ++ "_sub1_out"]
                  [name ++ "_mul2_out"] "" []),
                .node (mkNode "Add" [name ++ "_mul2_out", name ++ "_1_s"]
                  [name ++ "_add2_out"] "" []),
                .node (mkNode "Reshape"
                  [name ++ "_length", name ++ "_add2_out"]
                  [name ++ "_reshape1_out"] "" []),
                .node (mkNode "Less"
                  [name ++ "_reshape0_out", name ++ "_reshape1_out"]
                  [name ++ "_less_out"] "" []),
                .node (mkNode "Cast" [name ++ "_less_out"] [name ++ "_mask"]
                  "" [("to", .aInt (input_type : Int))]),
                .node (mkNode "Mul" [name ++ "_div1_out", name ++ "_mask"]
                  [name ++ "_mul3_out"] "" []),
                .node (mkNode "ReduceSum" [name ++ "_mul3_out"]
                  [name ++ "_rsum1_out"] ""
                  [("axes", .aInts [axis]), ("keepdims", .aInt 1)]),
                .node (mkNode "Equal"
                  [name ++ "_rsum1_out", name ++ "_0_itype"]
                  [name ++ "_equal1_out"] "" []),
                .node (mkNode "Where"
                  [name ++ "_equal1_out", name ++ "_1_itype",
                   name ++ "_rsum1_out"] [name ++ "_where_out"] "" []),
                .node (mkNode "Div" [name ++ "_mul3_out", name ++ "_where_out"]
                  [name] name [])]))
          else
            (inits1, .error (.notImplementedError
              "use_length must be true when both data and length are paased in."))

/-! ## A reference evaluator for the emitted target-IR nodes

Row-major dense tensors over ℚ.  Only the operators the claims evaluate are
implemented; evaluating anything else is an explicit error.  Division by a
zero denominator entry is an explicit error, which is how "the decomposition
never divides by zero" is made observable.  `Exp` has no rational value and
the evaluator is parametric in a positive stand-in for it. -/

/-- Dense row-major tensor. -/
structure Tensor where
  shape : List Nat
  data : List ℚ
  deriving DecidableEq, Repr

/-- Evaluation errors. -/
inductive EvalErr where
  | ruleError (e : ConvError)
  | unknownOp (s : String)
  | missingName (s : String)
  | divByZero
  | broadcastFail
  | badShape
  | badAttr (s : String)
  | unsupported (s : String)
  deriving DecidableEq, Repr

/-- All multi-indices of a shape, in row-major order. -/
def allIdx : List Nat → List (List Nat)
  | [] => [[]]
  | d :: rest => (List.range d).flatMap (fun i => (allIdx rest).map (i :: ·))

/-- Row-major linear index of a multi-index. -/
def flatIdx (shape idx : List Nat) : Nat :=
  (shape.zip idx).foldl (fun acc p => acc * p.1 + p.2) 0

/-- Element access by multi-index. -/
def tGet (t : Tensor) (idx : List Nat) : ℚ :=
  t.data.getD (flatIdx t.shape idx) 0

/-- Scalar value of a zero-rank or one-element tensor. -/
def scalarVal (t : Tensor) : ℚ := t.data.getD 0 0

/-- numpy broadcast of two dimensions. -/
def bcastDim (x y : Nat) : Option Nat :=
  if x = y then some x
  else if x = 1 then some y
  else if y = 1 then some x
  else none

/-- Left-pad a shape with 1s to a rank. -/
def padShape (r : Nat) (s : List Nat) : List Nat :=
  List.replicate (r - s.length) 1 ++ s

/-- numpy multidirectional broadcast of two shapes. -/
def bcastShape (a b : List Nat) : Option (List Nat) :=
  let r := max a.length b.length
  ((padShape r a).zip (padShape r b)).mapM (fun p => bcastDim p.1 p.2)

/-- Map an output multi-index onto an input operand of possibly smaller
broadcast shape. -/
def bIdx (outShape inShape : List Nat) (idx : List Nat) : List Nat :=
  (inShape.zip (idx.drop (outShape.length - inShape.length))).map
    (fun p => if p.1 = 1 then 0 else p.2)

/-- Broadcast elementwise binary operation. -/
def ewBinOp (f : ℚ → ℚ → Except EvalErr ℚ) (a b : Tensor) :
    Except EvalErr Tensor :=
  match bcastShape a.shape b.shape with
  | none => .error .broadcastFail
  | some sh => do
    let vals ← (allIdx sh).mapM (fun idx =>
      f (tGet a (bIdx sh a.shape idx)) (tGet b (bIdx sh b.shape idx)))
    pure ⟨sh, vals⟩

/-- Broadcast Where (condition, then-branch, else-branch). -/
def evalWhere (c a b : Tensor) : Except EvalErr Tensor :=
  match bcastShape c.shape a.shape with
  | none => .error .broadcastFail
  | some sh0 =>
    match bcastShape sh0 b.shape with
    | none => .error .broadcastFail
    | some sh =>
      .ok ⟨sh, (allIdx sh).map (fun idx =>
        if tGet c (bIdx sh c.shape idx) ≠ 0 then tGet a (bIdx sh a.shape idx)
        else tGet b (bIdx sh b.shape idx))⟩

/-- ReduceSum with keepdims=1 over the given (possibly negative) axes. -/
def evalReduceSum (t : Tensor) (axes : List Int) : Tensor :=
  let rank := t.shape.length
  let axesN := axes.map (fun a => (if a < 0 then a + (rank : Int) else a).toNat)
  let outShape := t.shape.enum.map
    (fun p => if p.1 ∈ axesN then 1 else p.2)
  ⟨outShape,
   (allIdx outShape).map (fun oidx =>
     (((allIdx t.shape).filter (fun tidx =>
        (List.range rank).all (fun k =>
          k ∈ axesN ∨ tidx.getD k 0 = oidx.getD k 0))).map
       (tGet t)).sum)⟩

/-- Descending insertion. -/
def insDesc (x : ℚ) : List ℚ → List ℚ
  | [] => [x]
  | y :: ys => if x ≥ y then x :: y :: ys else y :: insDesc x ys

/-- Descending insertion sort. -/
def sortDesc (l : List ℚ) : List ℚ := l.foldr insDesc []

/-- Top-k values along the last axis (the value output of ONNX TopK; the
index output is not bound by the item evaluator).  Other axes are outside the
model. -/
def evalTopK (t : Tensor) (axis k : Int) : Except EvalErr Tensor :=
  match t.shape.getLast? with
  | none => .error .badShape
  | some d =>
    if axis = -1 ∨ axis = (t.shape.length : Int) - 1 then
      if k < 0 then .error (.badAttr "TopK k")
      else
        let front := t.shape.take (t.shape.length - 1)
        let kk := min k.toNat d
        let rows := (List.range (front.foldl (· * ·) 1)).map
          (fun r => (t.data.drop (r * d)).take d)
        .ok ⟨front ++ [kk],
          rows.flatMap (fun row => (sortDesc row).take kk)⟩
    else .error (.unsupported "TopK axis")

/-- Constant-mode padding: per-axis begin pads then end pads, interior copied
from the input.  Negative pads (ONNX cropping) are outside the model. -/
def padConst (t : Tensor) (pads : List Int) (c : ℚ) : Except EvalErr Tensor :=
  let r := t.shape.length
  if pads.length ≠ 2 * r then .error .badShape
  else if pads.any (· < 0) then .error (.unsupported "negative pads")
  else
    let begins := (pads.take r).map Int.toNat
    let ends := (pads.drop r).map Int.toNat
    let outShape := (t.shape.zip (begins.zip ends)).map
      (fun p => p.2.1 + p.1 + p.2.2)
    .ok ⟨outShape,
      (allIdx outShape).map (fun idx =>
        if (idx.zip (begins.zip t.shape)).all
            (fun p => p.2.1 ≤ p.1 ∧ p.1 < p.2.1 + p.2.2) then
          tGet t ((idx.zip begins).map (fun p => p.1 - p.2))
        else c)⟩

/-- ONNX Slice on the leading axes with unit steps (the 3-input form the
evaluated graphs use): clamp the bounds, take the sub-box. -/
def evalSlice (t : Tensor) (starts ends : List Int) : Except EvalErr Tensor :=
  if starts.length ≠ ends.length ∨ starts.length > t.shape.length then
    .error .badShape
  else
    let norm : Int → Nat → Nat × Nat := fun s d =>
      let s' := if s < 0 then s + d else s
      (min (max s' 0).toNat d, d)
    let bounds := (t.shape.enum.map (fun p =>
      match starts.get? p.1, ends.get? p.1 with
      | some s, some e =>
        let lo := (norm s p.2).1
        let hi := (norm e p.2).1
        (lo, max hi lo)
      | _, _ => (0, p.2)))
    let outShape := bounds.map (fun p => p.2 - p.1)
    .ok ⟨outShape,
      (allIdx outShape).map (fun idx =>
        tGet t ((idx.zip bounds).map (fun p => p.1 + p.2.1)))⟩

/-- ONNX Reshape: `0` copies the input dimension at the same position, a
single `-1` is inferred; the element count must be preserved. -/
def evalReshape (t : Tensor) (spec : List Int) : Except EvalErr Tensor :=
  let dims0 : List Int := spec.enum.map (fun p =>
    if p.2 = 0 then (t.shape.getD p.1 0 : Int) else p.2)
  let known := (dims0.filter (· ≠ -1)).foldl (fun a d => a * d) 1
  let total : Int := t.data.length
  match dims0.count (-1) with
  | 0 =>
    if known = total ∧ dims0.all (0 ≤ ·) then
      .ok ⟨dims0.map Int.toNat, t.data⟩
    else .error .badShape
  | 1 =>
    if known > 0 ∧ total % known = 0 then
      let inferred := total / known
      let dims := dims0.map (fun d => if d = -1 then inferred.toNat else d.toNat)
      if (dims.foldl (· * ·) 1 : Nat) = t.data.length then
        .ok ⟨dims, t.data⟩
      else .error .badShape
    else .error .badShape
  | _ => .error .badShape

/-- ONNX Range over rationals. -/
def evalRange (s l d : ℚ) : Except EvalErr Tensor :=
  if d = 0 then .error .badShape
  else
    let n := (max ⌈(l - s) / d⌉ 0).toNat
    .ok ⟨[n], (List.range n).map (fun i => s + (i : ℚ) * d)⟩

/-- Cast to a dtype code: integer targets truncate toward zero, the boolean
target maps nonzero to 1, float targets keep the value (IEEE rounding is not
modelled). -/
def evalCast (toCode : Int) (t : Tensor) : Tensor :=
  if toCode = (TP_INT32 : Int) ∨ toCode = (TP_INT64 : Int) then
    ⟨t.shape, t.data.map (fun q => ((ratTrunc q : Int) : ℚ))⟩
  else if toCode = (TP_BOOL : Int) then
    ⟨t.shape, t.data.map (fun q => if q ≠ 0 then 1 else 0)⟩
  else t

/-- Environment binding value names to tensors (most recent binding first). -/
abbrev Env := List (String × Tensor)

/-- Lookup in an environment. -/
def envGet (env : Env) (n : String) : Option Tensor :=
  (env.find? (fun p => p.1 == n)).map (·.2)

/-- Fetch the i-th input of a node from the environment. -/
def envInput (env : Env) (n : ONNXNode) (i : Nat) : Except EvalErr Tensor :=
  match n.inputs.get? i with
  | none => .error .badShape
  | some nm =>
    match envGet env nm with
    | some t => .ok t
    | none => .error (.missingName nm)

/-- Typed attribute lookup helpers. -/
def nAttrInt (n : ONNXNode) (k : String) : Option Int :=
  match ((n.attrs.find? (fun p => p.1 == k)).map (·.2) : Option AttrVal) with
  | some (.aInt i) => some i
  | _ => none

def nAttrInts (n : ONNXNode) (k : String) : Option (List Int) :=
  match ((n.attrs.find? (fun p => p.1 == k)).map (·.2) : Option AttrVal) with
  | some (.aInts l) => some l
  | _ => none

def nAttrFloat (n : ONNXNode) (k : String) : Option ℚ :=
  match ((n.attrs.find? (fun p => p.1 == k)).map (·.2) : Option AttrVal) with
  | some (.aFloat q) => some q
  | _ => none

def nAttrStr (n : ONNXNode) (k : String) : Option String :=
  match ((n.attrs.find? (fun p => p.1 == k)).map (·.2) : Option AttrVal) with
  | some (.aStr s) => some s
  | _ => none

/-- Division with an observable zero-denominator error. -/
def qDivChecked (x y : ℚ) : Except EvalErr ℚ :=
  if y = 0 then .error .divByZero else .ok (x / y)

/-- Evaluate one node given a positive stand-in `expf` for `exp`. -/
def evalNode (expf : ℚ → ℚ) (env : Env) (n : ONNXNode) :
    Except EvalErr Tensor :=
  if n.op_type = "Div" then do
    let a ← envInput env n 0
    let b ← envInput env n 1
    ewBinOp qDivChecked a b
  else if n.op_type = "Mul" then do
    let a ← envInput env n 0
    let b ← envInput env n 1
    ewBinOp (fun x y => .ok (x * y)) a b
  else if n.op_type = "Add" then do
    let a ← envInput env n 0
    let b ← envInput env n 1
    ewBinOp (fun x y => .ok (x + y)) a b
  else if n.op_type = "Sub" then do
    let a ← envInput env n 0
    let b ← envInput env n 1
    ewBinOp (fun x y => .ok (x - y)) a b
  else if n.op_type = "Less" then do
    let a ← envInput env n 0
    let b ← envInput env n 1
    ewBinOp (fun x y => .ok (if x < y then 1 else 0)) a b
  else if n.op_type = "Greater" then do
    let a ← envInput env n 0
    let b ← envInput env n 1
    ewBinOp (fun x y => .ok (if x > y then 1 else 0)) a b
  else if n.op_type = "Equal" then do
    let a ← envInput env n 0
    let b ← envInput env n 1
    ewBinOp (fun x y => .ok (if x = y then 1 else 0)) a b
  else if n.op_type = "Where" then do
    let c ← envInput env n 0
    let a ← envInput env n 1
    let b ← envInput env n 2
    evalWhere c a b
  else if n.op_type = "Exp" then do
    let a ← envInput env n 0
    pure ⟨a.shape, a.data.map expf⟩
  else if n.op_type = "Shape" then do
    let a ← envInput env n 0
    pure ⟨[a.shape.length], a.shape.map (fun d => (d : ℚ))⟩
  else if n.op_type = "ReduceSum" then do
    let a ← envInput env n 0
    match nAttrInts n "axes", nAttrInt n "keepdims" with
    | some axes, some 1 => pure (evalReduceSum a axes)
    | _, _ => .error (.badAttr "ReduceSum")
  else if n.op_type = "Reshape" then do
    let a ← envInput env n 0
    let s ← envInput env n 1
    evalReshape a (s.data.map qToInt)
  else if n.op_type = "Range" then do
    let s ← envInput env n 0
    let l ← envInput env n 1
    let d ← envInput env n 2
    evalRange (scalarVal s) (scalarVal l) (scalarVal d)
  else if n.op_type = "Slice" then do
    let a ← envInput env n 0
    let s ← envInput env n 1
    let e ← envInput env n 2
    if n.inputs.length ≠ 3 then .error (.unsupported "Slice arity")
    else evalSlice a (s.data.map qToInt) (e.data.map qToInt)
  else if n.op_type = "Cast" then do
    let a ← envInput env n 0
    match nAttrInt n "to" with
    | some tc => pure (evalCast tc a)
    | none => .error (.badAttr "Cast")
  else if n.op_type = "Dropout" then
    -- inference mode: the identity, whether the ratio is an attribute or a
    -- second constant input
    envInput env n 0
  else if n.op_type = "Clip" then do
    let a ← envInput env n 0
    if n.inputs.length ≥ 3 then do
      let lo ← envInput env n 1
      let hi ← envInput env n 2
      pure ⟨a.shape, a.data.map
        (fun x => min (scalarVal hi) (max (scalarVal lo) x))⟩
    else
      match nAttrFloat n "min", nAttrFloat n "max" with
      | some lo, some hi =>
        pure ⟨a.shape, a.data.map (fun x => min hi (max lo x))⟩
      | _, _ => .error (.badAttr "Clip")
  else if n.op_type = "Pad" then do
    let a ← envInput env n 0
    if n.inputs.length ≥ 2 then do
      let p ← envInput env n 1
      let c ← (if n.inputs.length ≥ 3 then do
          let ct ← envInput env n 2
          pure (scalarVal ct)
        else pure (0 : ℚ))
      match nAttrStr n "mode" with
      | some "constant" => padConst a (p.data.map qToInt) c
      | some m => .error (.unsupported m)
      | none => .error (.badAttr "Pad")
    else
      match nAttrStr n "mode", nAttrInts n "pads" with
      | some "constant", some pads =>
        padConst a pads ((nAttrFloat n "value").getD 0)
      | some m, some _ => .error (.unsupported m)
      | _, _ => .error (.badAttr "Pad")
  else if n.op_type = "TopK" then do
    let a ← envInput env n 0
    match nAttrInt n "axis" with
    | none => .error (.badAttr "TopK")
    | some axis =>
      if n.inputs.length ≥ 2 then do
        let kt ← envInput env n 1
        evalTopK a axis (qToInt (scalarVal kt))
      else
        match nAttrInt n "k" with
        | some k => evalTopK a axis k
        | none => .error (.badAttr "TopK")
  else
    .error (.unknownOp n.op_type)

/-- Evaluate an item list in order, binding each node's first output. -/
def evalItems (expf : ℚ → ℚ) : List OutItem → Env → Except EvalErr Env
  | [], env => .ok env
  | .vi _ :: rest, env => evalItems expf rest env
  | .node n :: rest, env => do
    let t ← evalNode expf env n
    evalItems expf rest ((n.outputs.getD 0 "", t) :: env)

/-- Run a rule result: build the environment from the given input bindings
and the initializer list the rule produced, evaluate the emitted items, and
read the named output. -/
def runLowering (expf : ℚ → ℚ) (res : RuleResult) (inputEnv : Env)
    (outName : String) : Except EvalErr Tensor :=
  match res with
  | (inits, .ok items) => do
    let env := inputEnv ++ inits.map (fun i => (i.name, (⟨i.dims, i.vals⟩ : Tensor)))
    let env' ← evalItems expf items env
    match envGet env' outName with
    | some t => .ok t
    | none => .error (.missingName outName)
  | (_, .error e) => .error (.ruleError e)

/-- A concrete positive stand-in for `exp` used by closed evaluations (the
guarded-division property only needs positivity, which real `exp` has). -/
def expStub (x : ℚ) : ℚ := 1 + x * x

/-! ## Views of rule results used by the theorems -/

/-- The item list of a successful rule result ([] on an exception). -/
def okItems : Except ConvError (List OutItem) → List OutItem
  | .ok l => l
  | .error _ => []

/-- The computational nodes among the returned items. -/
def itemNodes (items : List OutItem) : List ONNXNode :=
  items.filterMap (fun it => match it with
    | .node n => some n
    | .vi _ => none)

/-- Is this exception the opset-11 version-requirement error? -/
def isVersionMsgErr : ConvError → Bool
  | .attributeError m => m == opset11Msg
  | _ => false

/-- Does a rule result consist of the opset-11 version-requirement error? -/
def isOpset11Err : Except ConvError (List OutItem) → Bool
  | .error e => isVersionMsgErr e
  | .ok _ => false

/-! ## Infrastructure lemmas -/

theorem exceptBindOk {ε α β : Type} (a : α) (f : α → Except ε β) :
    (Except.ok a : Except ε α) >>= f = f a := rfl

theorem exceptBindErr {ε α β : Type} (e : ε) (f : α → Except ε β) :
    (Except.error e : Except ε α) >>= f = Except.error e := rfl

theorem strAppendNeRight (a b c : String) (h : (b == c) = false) :
    ((a ++ b) == (a ++ c)) = false := by
  have hbc : b ≠ c := by
    intro he
    rw [he] at h
    simp at h
  have hne : a ++ b ≠ a ++ c := by
    intro he
    apply hbc
    have hd : (a ++ b).data = (a ++ c).data := by rw [he]
    rw [String.data_append, String.data_append] at hd
    have h2 := List.append_cancel_left hd
    cases b
    cases c
    simp only at h2
    rw [h2]
  simp [hne]

theorem qToInt_intCast (i : Int) : qToInt ((i : Int) : ℚ) = i := by
  simp [qToInt]

theorem qToInt_intsToRats (l : List Int) : (intsToRats l).map qToInt = l := by
  unfold intsToRats
  rw [List.map_map]
  have h : (qToInt ∘ fun (i : Int) => (i : ℚ)) = id := by
    funext i
    simp [qToInt]
  rw [h, List.map_id]

theorem allSomeList_map_some {α : Type} (l : List α) :
    allSomeList (l.map some) = some l := by
  induction l with
  | nil => rfl
  | cons a t ih => simp [allSomeList, ih]

theorem set_append_cons {α : Type} (A : List α) (x r : α) (rest : List α) :
    (A ++ r :: rest).set A.length x = A ++ x :: rest := by
  induction A with
  | nil => rfl
  | cons a A ih => simp [List.set, ih]

theorem mapM_except_ok {α : Type} (f : α → ℚ) (l : List α) :
    (l.mapM (fun x => (Except.ok (f x) : Except EvalErr ℚ)))
      = Except.ok (l.map f) := by
  induction l with
  | nil => rfl
  | cons a t ih =>
    rw [List.mapM_cons, ih]
    rfl

/-- Membership in `allIdx` is coordinatewise boundedness. -/
theorem mem_allIdx {idx : List Nat} : ∀ {s : List Nat},
    idx ∈ allIdx s ↔ List.Forall₂ (fun i d => i < d) idx s := by
  intro s
  induction s generalizing idx with
  | nil =>
    simp [allIdx, List.forall₂_nil_right_iff]
  | cons d rest ih =>
    simp only [allIdx, List.mem_flatMap, List.mem_map, List.mem_range,
      List.forall₂_cons_right_iff]
    constructor
    · rintro ⟨i, hi, ridx, hridx, rfl⟩
      exact ⟨i, ridx, hi, ih.mp hridx, rfl⟩
    · rintro ⟨i, ridx, hi, hridx, rfl⟩
      exact ⟨i, hi, ridx, ih.mpr hridx, rfl⟩

theorem allIdx_length : ∀ (s : List Nat), (allIdx s).length = s.prod := by
  intro s
  induction s with
  | nil => rfl
  | cons d rest ih =>
    show ((List.range d).flatMap (fun i => (allIdx rest).map (i :: ·))).length
      = (d :: rest).prod
    rw [List.length_flatMap]
    have hconst : List.map
        (List.length ∘ fun i => List.map (fun x => i :: x) (allIdx rest))
        (List.range d) = List.map (fun _ => rest.prod) (List.range d) := by
      apply List.map_congr_left
      intro i _
      simp [Function.comp, ih]
    rw [hconst]
    have hsum : ∀ (L : List ℕ),
        (List.map (fun _ => rest.prod) L).sum = L.length * rest.prod := by
      intro L
      induction L with
      | nil => simp
      | cons a t iht => simp [iht]; ring
    rw [hsum, List.length_range, List.prod_cons]

theorem foldl_horner (L : List (Nat × Nat)) :
    ∀ (a : Nat), L.foldl (fun acc p => acc * p.1 + p.2) a
      = a * (L.map Prod.fst).prod + L.foldl (fun acc p => acc * p.1 + p.2) 0 := by
  induction L with
  | nil => intro a; simp
  | cons p L ih =>
    intro a
    simp only [List.foldl_cons, List.map_cons, List.prod_cons]
    rw [ih (a * p.1 + p.2), ih (0 * p.1 + p.2)]
    ring

theorem flatIdx_cons (d : Nat) (rest : List Nat) (i : Nat) (ridx : List Nat)
    (h : ridx.length = rest.length) :
    flatIdx (d :: rest) (i :: ridx) = i * rest.prod + flatIdx rest ridx := by
  simp only [flatIdx, List.zip_cons_cons, List.foldl_cons]
  rw [foldl_horner]
  have : ((rest.zip ridx).map Prod.fst) = rest :=
    List.map_fst_zip rest ridx (le_of_eq h.symm)
  simp [this]

theorem flatIdx_lt {idx s : List Nat}
    (h : List.Forall₂ (fun i d => i < d) idx s) : flatIdx s idx < s.prod := by
  induction h with
  | nil => simp [flatIdx]
  | @cons i d idx s hid hrest ih =>
    have hlen : idx.length = s.length := hrest.length_eq
    rw [flatIdx_cons d s i idx hlen]
    calc i * s.prod + flatIdx s idx < i * s.prod + s.prod := by
          exact Nat.add_lt_add_left ih _
      _ = (i + 1) * s.prod := by ring
      _ ≤ d * s.prod := Nat.mul_le_mul_right _ hid

theorem flatMap_range_get (d : Nat) :
    ∀ (F : Nat → List (List Nat)) (L : Nat), (∀ j, (F j).length = L) →
    ∀ i k, i < d → k < L →
    ((List.range d).flatMap F)[i * L + k]? = (F i)[k]? := by
  induction d with
  | zero => intro F L _ i k hi; omega
  | succ d ih =>
    intro F L hF i k hi hk
    rw [List.range_succ_eq_map]
    rw [List.flatMap_cons]
    have hmap : ((List.range d).map Nat.succ).flatMap F
        = (List.range d).flatMap (F ∘ Nat.succ) := by
      induction (List.range d) with
      | nil => rfl
      | cons a t ihh => simp [List.flatMap_cons, ihh]
    rw [hmap]
    cases i with
    | zero =>
      have h0 : (0 : Nat) * L + k = k := by ring
      rw [h0]
      rw [List.getElem?_append_left (by rw [hF 0]; exact hk)]
    | succ j =>
      have hpos : (j + 1) * L + k = (F 0).length + (j * L + k) := by
        rw [hF 0]; ring
      rw [hpos, List.getElem?_append_right (Nat.le_add_right _ _)]
      have h1 : (F 0).length + (j * L + k) - (F 0).length = j * L + k := by
        omega
      rw [h1]
      exact ih (F ∘ Nat.succ) L (fun j => hF _) j k (by omega) hk

/-- The row-major linear index recovers the multi-index inside `allIdx`. -/
theorem allIdx_get_flatIdx {idx : List Nat} : ∀ {s : List Nat},
    idx ∈ allIdx s → (allIdx s)[flatIdx s idx]? = some idx := by
  intro s
  induction s generalizing idx with
  | nil =>
    intro h
    simp [allIdx] at h
    subst h
    rfl
  | cons d rest ih =>
    intro h
    rcases List.mem_flatMap.mp h with ⟨i, hi, hmem⟩
    rcases List.mem_map.mp hmem with ⟨ridx, hridx, rfl⟩
    have hb : List.Forall₂ (fun i d => i < d) ridx rest := mem_allIdx.mp hridx
    have hlen : ridx.length = rest.length := hb.length_eq
    rw [flatIdx_cons d rest i ridx hlen]
    rw [show allIdx (d :: rest)
        = (List.range d).flatMap (fun j => (allIdx rest).map (j :: ·)) from rfl]
    rw [flatMap_range_get d _ rest.prod
      (fun j => by simp [allIdx_length]) i (flatIdx rest ridx)
      (List.mem_range.mp hi) (flatIdx_lt hb)]
    rw [List.getElem?_map]
    rw [ih hridx]
    rfl

theorem tGet_mk_map {s : List Nat} (g : List Nat → ℚ) {idx : List Nat}
    (h : idx ∈ allIdx s) : tGet ⟨s, (allIdx s).map g⟩ idx = g idx := by
  show ((allIdx s).map g).getD (flatIdx s idx) 0 = g idx
  rw [List.getD_eq_getElem?_getD, List.getElem?_map, allIdx_get_flatIdx h]
  rfl

/-- Broadcasting a shape against itself maps every valid index to itself. -/
theorem bIdx_self {idx s : List Nat} (h : idx ∈ allIdx s) :
    bIdx s s idx = idx := by
  have hb : List.Forall₂ (fun i d => i < d) idx s := mem_allIdx.mp h
  clear h
  simp only [bIdx, Nat.sub_self, List.drop_zero]
  induction hb with
  | nil => rfl
  | @cons i d idx s hid _ ih =>
    simp only [List.zip_cons_cons, List.map_cons]
    rw [ih]
    by_cases hd : d = 1
    · subst hd
      have hz : i = 0 := by omega
      simp [hz]
    · simp [hd]

theorem bcastDim_self (d : Nat) : bcastDim d d = some d := by
  simp [bcastDim]

theorem bcastDim_one (d : Nat) : bcastDim d 1 = some d := by
  by_cases h : d = 1 <;> simp [bcastDim, h]

theorem bcastShape_self (s : List Nat) : bcastShape s s = some s := by
  simp only [bcastShape, max_self, padShape, Nat.sub_self, List.replicate_zero,
    List.nil_append]
  induction s with
  | nil => rfl
  | cons d rest ih =>
    simp only [List.zip_cons_cons, List.mapM_cons, bcastDim_self, ih]
    rfl

theorem mapM_bcastDim_one (s : List Nat) :
    (s.zip (List.replicate s.length 1)).mapM (fun p => bcastDim p.1 p.2)
      = some s := by
  induction s with
  | nil => rfl
  | cons d t ih =>
    simp only [List.length_cons, List.replicate_succ, List.zip_cons_cons,
      List.mapM_cons, bcastDim_one, ih]
    rfl

theorem bcastShape_one (s : List Nat) (h : s ≠ []) :
    bcastShape s [1] = some s := by
  have hlen : 1 ≤ s.length := by
    cases s with
    | nil => exact absurd rfl h
    | cons a t => simp
  simp only [bcastShape, List.length_singleton]
  rw [max_eq_left hlen]
  have hpad : padShape s.length s = s := by
    simp [padShape]
  have hpad1 : padShape s.length [1] = List.replicate s.length 1 := by
    simp only [padShape, List.length_singleton]
    have h2 : List.replicate (s.length - 1) 1 ++ [1]
        = List.replicate (s.length - 1) 1 ++ List.replicate 1 1 := rfl
    rw [h2, ← List.replicate_add]
    congr 1
    omega
  rw [hpad, hpad1, mapM_bcastDim_one]

/-! ## Analysis of `transform_padding` -/

/-- The even-index entries of a list, in order. -/
def evenEntries {α : Type} : List α → List α
  | [] => []
  | [a] => [a]
  | a :: _ :: t => a :: evenEntries t

/-- The odd-index entries of a list, in order. -/
def oddEntries {α : Type} : List α → List α
  | [] => []
  | [_] => []
  | _ :: b :: t => b :: oddEntries t

theorem evenEntries_length {α : Type} :
    ∀ (l : List α) (n : Nat), l.length = 2 * n →
      (evenEntries l).length = n ∧ (oddEntries l).length = n
  | [], n => by
    intro h
    simp only [List.length_nil] at h
    simp [evenEntries, oddEntries]
    omega
  | [a], n => by
    intro h
    simp only [List.length_singleton] at h
    omega
  | a :: b :: t, n => by
    intro h
    simp only [List.length_cons] at h
    match n, h with
    | m + 1, h =>
      have ht : t.length = 2 * m := by omega
      have := evenEntries_length t m ht
      simp [evenEntries, oddEntries, this.1, this.2]

theorem evenOdd_perm {α : Type} :
    ∀ (l : List α), (evenEntries l ++ oddEntries l).Perm l
  | [] => by simp [evenEntries, oddEntries]
  | [a] => by simp [evenEntries, oddEntries]
  | a :: b :: t => by
    have ih := evenOdd_perm t
    show (a :: (evenEntries t ++ b :: oddEntries t)).Perm (a :: b :: t)
    exact List.Perm.cons a
      (List.Perm.trans List.perm_middle (List.Perm.cons b ih))

/-- Invariant of the `transform_padding` write loop: starting from a state
whose output is written-begins ++ blank-begins ++ written-ends ++ blank-ends,
processing a list of length `2 * n` writes its even entries into the first
blank region and its odd entries into the second. -/
theorem tp_fold_spec :
    ∀ (n : Nat) (l A B R1 R2 : List Int),
      l.length = 2 * n → R1.length = n → R2.length = n →
      (List.range (2 * n)).foldl (tpStep l)
        (A ++ R1 ++ B ++ R2, A.length, A.length + n + B.length)
        = (A ++ evenEntries l ++ B ++ oddEntries l, A.length + n,
           A.length + n + B.length + n) := by
  intro n
  induction n with
  | zero =>
    intro l A B R1 R2 hl h1 h2
    rw [List.length_eq_zero.mp h1, List.length_eq_zero.mp h2,
        List.length_eq_zero.mp (by omega : l.length = 0)]
    simp [evenEntries, oddEntries]
  | succ m ih =>
    intro l A B R1 R2 hl h1 h2
    match l, R1, R2, hl, h1, h2 with
    | a :: b :: t, r1 :: R1', r2 :: R2', hl, h1, h2 =>
      have ht : t.length = 2 * m := by
        simp only [List.length_cons] at hl; omega
      have h1' : R1'.length = m := by
        simp only [List.length_cons] at h1; omega
      have h2' : R2'.length = m := by
        simp only [List.length_cons] at h2; omega
      have hrange : List.range (2 * (m + 1))
          = 0 :: 1 :: (List.range (2 * m)).map (fun x => x + 2) := by
        rw [show 2 * (m + 1) = (2 * m + 1) + 1 by ring]
        rw [List.range_succ_eq_map, List.range_succ_eq_map]
        simp only [List.map_cons, List.map_map]
        refine congrArg (0 :: ·) (congrArg (1 :: ·) ?_)
        apply List.map_congr_left
        intro x _
        show x.succ.succ = x + 2
        omega
      rw [hrange]
      simp only [List.foldl_cons]
      -- iteration 0: even index, writes `a` at the start cursor
      have step0 : tpStep (a :: b :: t)
          (A ++ (r1 :: R1') ++ B ++ (r2 :: R2'), A.length,
           A.length + (m + 1) + B.length) 0
          = (A ++ (a :: R1') ++ B ++ (r2 :: R2'), A.length + 1,
             A.length + (m + 1) + B.length) := by
        have hset : (A ++ (r1 :: R1') ++ B ++ (r2 :: R2')).set A.length a
            = A ++ (a :: R1') ++ B ++ (r2 :: R2') := by
          rw [show A ++ (r1 :: R1') ++ B ++ (r2 :: R2')
              = A ++ r1 :: (R1' ++ B ++ (r2 :: R2')) by simp]
          rw [set_append_cons]
          simp
        simp only [tpStep, Nat.zero_mod, List.getD_cons_zero, if_true]
        rw [hset]
      rw [step0]
      -- iteration 1: odd index, writes `b` at the end cursor
      have step1 : tpStep (a :: b :: t)
          (A ++ (a :: R1') ++ B ++ (r2 :: R2'), A.length + 1,
           A.length + (m + 1) + B.length) 1
          = ((A ++ [a]) ++ R1' ++ (B ++ [b]) ++ R2', A.length + 1,
             A.length + (m + 1) + B.length + 1) := by
        have hset : (A ++ (a :: R1') ++ B ++ (r2 :: R2')).set
            (A.length + (m + 1) + B.length) b
            = (A ++ [a]) ++ R1' ++ (B ++ [b]) ++ R2' := by
          rw [show A ++ (a :: R1') ++ B ++ (r2 :: R2')
              = (A ++ a :: R1' ++ B) ++ r2 :: R2' by simp]
          rw [show A.length + (m + 1) + B.length
              = (A ++ a :: R1' ++ B).length by
            simp only [List.length_append, List.length_cons]
            omega]
          rw [set_append_cons]
          simp
        simp only [tpStep]
        rw [if_neg (by decide : ¬(1 % 2 = 0))]
        simp only [List.getD_cons_succ, List.getD_cons_zero]
        rw [hset]
      rw [step1]
      -- remaining iterations: the loop shifted by two over `t`
      have hshift : ∀ (is : List Nat) (st : List Int × Nat × Nat),
          (is.map (fun x => x + 2)).foldl (tpStep (a :: b :: t)) st
            = is.foldl (tpStep t) st := by
        intro is
        induction is with
        | nil => intro st; rfl
        | cons j js ihh =>
          intro st
          simp only [List.map_cons, List.foldl_cons]
          rw [show tpStep (a :: b :: t) st (j + 2) = tpStep t st j by
            simp [tpStep, Nat.add_mod_right]]
          exact ihh _
      rw [hshift]
      have hA : A.length + 1 = (A ++ [a]).length := by simp
      have hE : A.length + (m + 1) + B.length + 1
          = (A ++ [a]).length + m + (B ++ [b]).length := by
        simp only [List.length_append, List.length_singleton]
        omega
      rw [hA, hE, ih t (A ++ [a]) (B ++ [b]) R1' R2' ht h1' h2']
      simp only [Prod.mk.injEq]
      refine ⟨?_, ?_, ?_⟩
      · simp [evenEntries, oddEntries]
      · simp only [List.length_append, List.length_singleton]
        omega
      · simp only [List.length_append, List.length_singleton]
        omega

/-- `transform_padding` on an even-length list is exactly evens-then-odds. -/
theorem transform_padding_eq {l : List Int} {n : Nat} (h : l.length = 2 * n) :
    transform_padding l = evenEntries l ++ oddEntries l := by
  have key := tp_fold_spec n l [] [] (List.replicate n 0) (List.replicate n 0)
    h (List.length_replicate n 0) (List.length_replicate n 0)
  simp only [List.nil_append, List.append_nil, List.length_nil, Nat.zero_add,
    Nat.add_zero] at key
  show ((List.range l.length).foldl (tpStep l)
    (List.replicate l.length 0, 0, l.length / 2)).1
      = evenEntries l ++ oddEntries l
  rw [h, show 2 * n / 2 = n by omega]
  rw [show List.replicate (2 * n) (0 : Int)
      = List.replicate n 0 ++ List.replicate n 0 by
    rw [← List.replicate_add]; congr 1; ring]
  rw [key]

/-! ## Claim theorems -/

/-- A rule result's last returned item, when it is a computational node:
its output list. -/
def lastNodeOutputs (items : List OutItem) : Option (List String) :=
  match items.getLast? with
  | some (.node n) => some n.outputs
  | _ => none

/-- C10: for every pad-width list of even length 2n, `transform_padding`
returns a list of the same length whose first n entries are the even-index
elements in order and whose last n entries are the odd-index elements in
order — a pure permutation of the input. -/
theorem claim_C10 (l : List Int) (n : Nat) (h : l.length = 2 * n) :
    transform_padding l = evenEntries l ++ oddEntries l ∧
    (evenEntries l).length = n ∧ (oddEntries l).length = n ∧
    (transform_padding l).length = 2 * n ∧
    (transform_padding l).Perm l := by
  have he := transform_padding_eq h
  have hl := evenEntries_length l n h
  refine ⟨he, hl.1, hl.2, ?_, ?_⟩
  · rw [he, List.length_append, hl.1, hl.2]
    ring
  · rw [he]
    exact evenOdd_perm l

/-- Witness for C10 at the concrete input [1,2,3,4,5,6]. -/
theorem claim_C10_witness :
    transform_padding [1, 2, 3, 4, 5, 6] = [1, 3, 5, 2, 4, 6] ∧
    (transform_padding [1, 2, 3, 4, 5, 6]).Perm [1, 2, 3, 4, 5, 6] := by
  have h := claim_C10 [1, 2, 3, 4, 5, 6] 3 (by decide)
  refine ⟨?_, h.2.2.2.2⟩
  rw [h.1]
  decide

/-- C2 counterexample: the unbalanced value "(1,2" does NOT raise a
malformed-attribute error — the tuple pattern finds no match (it needs a
closing parenthesis), so `parse_helper` silently returns the supplied
default. -/
theorem claim_C2_counterexample :
    parse_helper [("kernel", "(1,2")] "kernel" (some [3, 3])
      = Except.ok (some [3, 3]) ∧
    parse_helper [("kernel", "(1,2")] "kernel" none = Except.ok none := by
  constructor
  · rfl
  · rfl

/-- C2 (amended): with the key present, `parse_helper` returns the parsed
tuple on a full-string match of the tuple pattern and raises a
malformed-attribute error naming the key and raw string when the pattern
matches only a proper substring; but when the pattern finds no match at all
(e.g. the unbalanced "(1,2") the default is silently returned, exactly as
when the key is absent. -/
theorem claim_C2 (attrs : List (String × String)) (key s : String)
    (alt : Option (List Int)) :
    (attrsGet attrs key = none → parse_helper attrs key alt = .ok alt) ∧
    (attrsGet attrs key = some s →
      (tupleSearch s.toList 0 = some (0, s.length) →
        parse_helper attrs key alt = (pyEvalTuple s).map some) ∧
      (∀ sp, tupleSearch s.toList 0 = some sp → sp ≠ (0, s.length) →
        parse_helper attrs key alt
          = .error (.attributeError
              ("Malformed " ++ key ++ " dimensions: " ++ s))) ∧
      (tupleSearch s.toList 0 = none → parse_helper attrs key alt = .ok alt)) := by
  constructor
  · intro h
    unfold parse_helper
    by_cases hE : attrs = []
    · rw [if_pos hE]
    · rw [if_neg hE, h]
  · intro h
    have hE : ¬attrs = [] := by
      intro hE
      rw [hE] at h
      simp [attrsGet] at h
    refine ⟨?_, ?_, ?_⟩
    · intro hs
      unfold parse_helper
      rw [if_neg hE, h]
      dsimp only
      rw [hs]
      dsimp only
      rw [if_pos rfl]
    · intro sp hs hne2
      unfold parse_helper
      rw [if_neg hE, h]
      dsimp only
      rw [hs]
      dsimp only
      rw [if_neg hne2]
    · intro hs
      unfold parse_helper
      rw [if_neg hE, h]
      dsimp only
      rw [hs]

/-- Witness for C2 at a full-match, a partial-match and an absent key. -/
theorem claim_C2_witness :
    parse_helper [("kernel", "(1, 2)")] "kernel" none
      = Except.ok (some [1, 2]) ∧
    parse_helper [("kernel", "(1,2)x")] "kernel" none
      = Except.error (.attributeError "Malformed kernel dimensions: (1,2)x") ∧
    parse_helper [("other", "(1)")] "kernel" (some [7]) = Except.ok (some [7]) := by
  refine ⟨?_, ?_, ?_⟩
  · have h := ((claim_C2 [("kernel", "(1, 2)")] "kernel" "(1, 2)" none).2
      (by decide)).1 (by decide)
    rw [h]
    decide
  · exact ((claim_C2 [("kernel", "(1,2)x")] "kernel" "(1,2)x" none).2
      (by decide)).2.1 (0, 5) (by decide) (by decide)
  · exact (claim_C2 [("other", "(1)")] "kernel" "(1)" (some [7])).1 (by decide)

/-- C4 counterexample: the SliceChannel rule, fed a minimal valid node
(required attribute num_outputs = 2, defaults elsewhere), returns a Split
node whose FIRST output is named `split0_output0`, not the node name
`split0` — the naming contract of the claim fails, and the positional names
start at `_output0`, not at `<node-name>`. -/
theorem claim_C4_counterexample :
    (convert_slice_channel
      ⟨"split0", "SliceChannel", [(0, 0)], [("num_outputs", "2")]⟩
      ⟨["X"], [0], [], 12, 1, [[4, 6]], 0⟩).2
    = Except.ok [.node (mkNode "Split" ["X"]
        ["split0_output0", "split0_output1"] "split0"
        [("axis", .aInt 1), ("split", .aInts [3, 3])])] ∧
    "split0_output0" ≠ "split0" := by
  constructor
  · rfl
  · decide

/-- C4 (amended): every basic (attribute-free) rule returns the single node
whose output list is exactly the source node's name, and topk names its two
outputs positionally `<name>`, `<name>_output1`; but the SliceChannel Split
branch names ALL outputs positionally as `<name>_output0`, `<name>_output1`,
..., so its first output differs from the node name. -/
theorem claim_C4 :
    (∀ (op : String) (node : MxNode) (kwargs : Kwargs),
      create_basic_op_node op node kwargs
        = [.node (mkNode op (resolvedInputs node kwargs) [node.name]
            node.name [])]) ∧
    (∀ (node : MxNode) (kwargs : Kwargs) (axis k : Int),
      pyIntAttrD node.attrs "axis" (-1) = .ok axis →
      pyIntAttrD node.attrs "k" 1 = .ok k →
      attrsGet node.attrs "ret_typ" = some "both" →
      (∀ input0, (resolvedInputs node kwargs).get? 0 = some input0 →
        lastNodeOutputs (okItems (convert_topk node kwargs).2)
          = some [node.name, node.name ++ "_output1"])) ∧
    (∀ (node : MxNode) (kwargs : Kwargs) (sno : String) (no axis d : Int)
       (shp : List Int),
      attrsGet node.attrs "num_outputs" = some sno →
      parsePyInt sno = some no →
      pyIntAttrD node.attrs "axis" 1 = .ok axis →
      pyIntAttrD node.attrs "squeeze_axis" 0 = .ok 0 →
      1 < no →
      pyListIdx kwargs.in_shape 0 = .ok shp →
      pyListIdxI shp axis = .ok d →
      (convert_slice_channel node kwargs).2
        = .ok [.node (mkNode "Split" (resolvedInputs node kwargs)
            ((List.range no.toNat).map
              (fun i => node.name ++ "_output" ++ toString i))
            node.name
            [("axis", .aInt axis),
             ("split", .aInts (List.replicate no.toNat (Int.fdiv d no)))])]) := by
  refine ⟨?_, ?_, ?_⟩
  · intro op node kwargs
    rfl
  · intro node kwargs axis k ha hk hr input0 hi
    simp only [resolvedInputs] at hi
    unfold convert_topk
    dsimp only [get_inputs] at hi ⊢
    simp only [ha, hk, hr, if_true]
    by_cases hv : kwargs.opset_version ≥ 10
    · rw [if_pos hv]
      dsimp only [create_const_scalar_node]
      rw [hi]
      rfl
    · rw [if_neg hv]
      rfl
  · intro node kwargs sno no axis d shp h1 h2 h3 h4 h5 h6 h7
    unfold convert_slice_channel
    dsimp only [get_inputs]
    rw [h1]
    dsimp only
    rw [h2]
    dsimp only
    rw [h3]
    dsimp only
    rw [h4]
    dsimp only
    rw [if_neg (by omega : ¬((0 : Int) = 1 ∧ no = 1))]
    rw [if_pos (by omega : (0 : Int) = 0 ∧ no > 1)]
    rw [h6]
    dsimp only
    rw [h7]
    dsimp only [resolvedInputs, get_inputs]

/-- Witness for C4 at concrete inputs: a basic op node, a topk node, and a
SliceChannel split. -/
theorem claim_C4_witness :
    create_basic_op_node "Floor" ⟨"fl", "floor", [(0, 0)], []⟩
      ⟨["X"], [0], [], 12, 1, [], 0⟩
      = [.node (mkNode "Floor" ["X"] ["fl"] "fl" [])] ∧
    lastNodeOutputs (okItems ((convert_topk
      ⟨"tk", "topk", [(0, 0)], [("k", "3"), ("ret_typ", "both")]⟩
      ⟨["X"], [0], [], 10, 1, [], 0⟩).2)) = some ["tk", "tk_output1"] ∧
    (convert_slice_channel
      ⟨"split0", "SliceChannel", [(0, 0)], [("num_outputs", "2")]⟩
      ⟨["X"], [0], [], 12, 1, [[4, 6]], 0⟩).2
      = .ok [.node (mkNode "Split" ["X"] ["split0_output0", "split0_output1"]
          "split0" [("axis", .aInt 1), ("split", .aInts [3, 3])])] := by
  refine ⟨?_, ?_, ?_⟩
  · exact claim_C4.1 "Floor" ⟨"fl", "floor", [(0, 0)], []⟩
      ⟨["X"], [0], [], 12, 1, [], 0⟩
  · exact claim_C4.2.1
      ⟨"tk", "topk", [(0, 0)], [("k", "3"), ("ret_typ", "both")]⟩
      ⟨["X"], [0], [], 10, 1, [], 0⟩ (-1) 3 (by decide) (by decide) (by decide)
      "X" (by decide)
  · have h := claim_C4.2.2
      ⟨"split0", "SliceChannel", [(0, 0)], [("num_outputs", "2")]⟩
      ⟨["X"], [0], [], 12, 1, [[4, 6]], 0⟩
      "2" 2 1 6 [4, 6] (by decide) (by decide) (by decide) (by decide)
      (by decide) (by decide) (by decide)
    rw [h]
    decide

/-- C6: the dot rule rebinds its working input list to [] before reading the
original inputs, so every invocation raises IndexError; in particular no
invocation ever returns a node list, and none containing a Transpose node. -/
theorem claim_C6 (node : MxNode) (kwargs : Kwargs) :
    (convert_dot node kwargs).2 = Except.error ConvError.indexError ∧
    (itemNodes (okItems (convert_dot node kwargs).2)).all
      (fun n => n.op_type != "Transpose") = true := by
  have h : convert_dot_items node kwargs = .error .indexError := by
    unfold convert_dot_items
    by_cases h1 : get_boolean_attribute_value (get_inputs node kwargs).2.2
        "transpose_a" = 1
    · simp only [h1, if_true, if_pos rfl, pyListIdx]
      rfl
    · simp only [h1, if_false, if_neg h1, pyListIdx]
      rfl
  refine ⟨h, ?_⟩
  show (itemNodes (okItems (convert_dot_items node kwargs))).all _ = true
  rw [h]
  rfl

theorem isVersionMsgErr_pyIntAttrD {attrs : List (String × String)}
    {k : String} {d : Int} {e : ConvError}
    (h : pyIntAttrD attrs k d = .error e) : isVersionMsgErr e = false := by
  unfold pyIntAttrD at h
  split at h
  · simp at h
  · split at h
    · simp at h
    · injection h with h'
      subst h'
      rfl

theorem isVersionMsgErr_pyFloatAttrD {attrs : List (String × String)}
    {k : String} {d : ℚ} {e : ConvError}
    (h : pyFloatAttrD attrs k d = .error e) : isVersionMsgErr e = false := by
  unfold pyFloatAttrD at h
  split at h
  · simp at h
  · split at h
    · simp at h
    · injection h with h'
      subst h'
      rfl

theorem isVersionMsgErr_arangeStop {attrs : List (String × String)}
    {npdt : NPDtype} {e : ConvError}
    (h : arangeStop attrs npdt = .error e) : isVersionMsgErr e = false := by
  unfold arangeStop at h
  split at h
  · injection h with h'
    subst h'
    split
    all_goals rfl
  · split at h
    · simp at h
    · injection h with h'
      subst h'
      rfl

/-- C7: the range-generation rules (`_arange` and `_contrib_arange_like`),
the interpolation rule and the repeat rule raise the opset-11
version-requirement error exactly when the context's target-format version
is below 11, with the initializer list untouched; at version 11 or above
they proceed to their normal lowering (whose own failures are distinct
errors). -/
theorem claim_C7 (node : MxNode) (kwargs : Kwargs) :
    (isOpset11Err (convert_arange node kwargs).2
       = decide (kwargs.opset_version < 11) ∧
     (kwargs.opset_version < 11 →
       convert_arange node kwargs
         = (kwargs.initializer, .error (.attributeError opset11Msg)))) ∧
    (isOpset11Err (convert_contrib_BilinearResize2D node kwargs).2
       = decide (kwargs.opset_version < 11) ∧
     (kwargs.opset_version < 11 →
       convert_contrib_BilinearResize2D node kwargs
         = (kwargs.initializer, .error (.attributeError opset11Msg)))) ∧
    (isOpset11Err (convert_repeat node kwargs).2
       = decide (kwargs.opset_version < 11) ∧
     (kwargs.opset_version < 11 →
       convert_repeat node kwargs
         = (kwargs.initializer, .error (.attributeError opset11Msg)))) ∧
    (isOpset11Err (convert_arange_like node kwargs).2
       = decide (kwargs.opset_version < 11) ∧
     (kwargs.opset_version < 11 →
       convert_arange_like node kwargs
         = (kwargs.initializer, .error (.attributeError opset11Msg)))) := by
  refine ⟨⟨?_, ?_⟩, ⟨?_, ?_⟩, ⟨?_, ?_⟩, ⟨?_, ?_⟩⟩
  · by_cases hv : kwargs.opset_version < 11
    · unfold convert_arange
      dsimp only [get_inputs]
      rw [if_pos hv, decide_eq_true hv]
      rfl
    · unfold convert_arange
      dsimp only [get_inputs, create_const_scalar_node]
      rw [if_neg hv, decide_eq_false hv]
      repeat' split
      all_goals first
        | rfl
        | decide
        | (rename_i heq
           exact isVersionMsgErr_pyIntAttrD heq)
        | (rename_i heq
           exact isVersionMsgErr_arangeStop heq)
  · intro hv
    unfold convert_arange
    dsimp only [get_inputs]
    rw [if_pos hv]
  · by_cases hv : kwargs.opset_version < 11
    · unfold convert_contrib_BilinearResize2D
      dsimp only [get_inputs]
      rw [if_pos hv, decide_eq_true hv]
      rfl
    · unfold convert_contrib_BilinearResize2D
      dsimp only [get_inputs, create_tensor]
      rw [if_neg hv, decide_eq_false hv]
      repeat' split
      all_goals first
        | rfl
        | decide
        | (rename_i heq
           exact isVersionMsgErr_pyIntAttrD heq)
        | (rename_i heq
           exact isVersionMsgErr_pyFloatAttrD heq)
  · intro hv
    unfold convert_contrib_BilinearResize2D
    dsimp only [get_inputs]
    rw [if_pos hv]
  · by_cases hv : kwargs.opset_version < 11
    · unfold convert_repeat
      dsimp only [get_inputs]
      rw [if_pos hv, decide_eq_true hv]
      rfl
    · unfold convert_repeat
      dsimp only [get_inputs, create_tensor]
      rw [if_neg hv, decide_eq_false hv]
      repeat' split
      all_goals first
        | rfl
        | decide
        | (rename_i heq
           exact isVersionMsgErr_pyIntAttrD heq)
  · intro hv
    unfold convert_repeat
    dsimp only [get_inputs]
    rw [if_pos hv]
  · by_cases hv : kwargs.opset_version < 11
    · unfold convert_arange_like
      dsimp only [get_inputs]
      rw [if_pos hv, decide_eq_true hv]
      rfl
    · unfold convert_arange_like
      dsimp only [get_inputs, create_const_scalar_node, create_tensor]
      rw [if_neg hv, decide_eq_false hv]
      repeat' split
      all_goals first
        | rfl
        | decide
        | (rename_i heq
           exact isVersionMsgErr_pyIntAttrD heq)
  · intro hv
    unfold convert_arange_like
    dsimp only [get_inputs]
    rw [if_pos hv]

/-- Witness for C7: at opset 10 all four rules return exactly the
version-requirement error with the initializer list unchanged; at opset 11
they proceed (arange lowers to a Range node, arange_like emits its
decomposition). -/
theorem claim_C7_witness :
    convert_arange ⟨"ar", "_arange", [], [("start", "0"), ("stop", "5")]⟩
      ⟨[], [], [], 10, 1, [], 0⟩
      = ([], .error (.attributeError opset11Msg)) ∧
    convert_contrib_BilinearResize2D
      ⟨"bz", "_contrib_BilinearResize2D", [(0, 0)],
        [("height", "4"), ("width", "4")]⟩ ⟨["X"], [0], [], 10, 1, [], 0⟩
      = ([], .error (.attributeError opset11Msg)) ∧
    convert_repeat ⟨"rp", "repeat", [(0, 0)], [("repeats", "2")]⟩
      ⟨["X"], [0], [], 10, 1, [], 0⟩
      = ([], .error (.attributeError opset11Msg)) ∧
    convert_arange_like ⟨"al", "_contrib_arange_like", [(0, 0)], []⟩
      ⟨["X"], [0], [], 10, 1, [], 0⟩
      = ([], .error (.attributeError opset11Msg)) ∧
    isOpset11Err (convert_arange
      ⟨"ar", "_arange", [], [("start", "0"), ("stop", "5")]⟩
      ⟨[], [], [], 11, 1, [], 0⟩).2 = false ∧
    isOpset11Err (convert_arange_like
      ⟨"al", "_contrib_arange_like", [(0, 0)], []⟩
      ⟨["X"], [0], [], 11, 1, [], 0⟩).2 = false := by
  have h10 := claim_C7 ⟨"ar", "_arange", [], [("start", "0"), ("stop", "5")]⟩
    ⟨[], [], [], 10, 1, [], 0⟩
  have h10b := claim_C7 ⟨"bz", "_contrib_BilinearResize2D", [(0, 0)],
    [("height", "4"), ("width", "4")]⟩ ⟨["X"], [0], [], 10, 1, [], 0⟩
  have h10r := claim_C7 ⟨"rp", "repeat", [(0, 0)], [("repeats", "2")]⟩
    ⟨["X"], [0], [], 10, 1, [], 0⟩
  have h10a := claim_C7 ⟨"al", "_contrib_arange_like", [(0, 0)], []⟩
    ⟨["X"], [0], [], 10, 1, [], 0⟩
  have h11 := claim_C7 ⟨"ar", "_arange", [], [("start", "0"), ("stop", "5")]⟩
    ⟨[], [], [], 11, 1, [], 0⟩
  have h11a := claim_C7 ⟨"al", "_contrib_arange_like", [(0, 0)], []⟩
    ⟨["X"], [0], [], 11, 1, [], 0⟩
  refine ⟨h10.1.2 (by decide), h10b.2.1.2 (by decide),
    h10r.2.2.1.2 (by decide), h10a.2.2.2.2 (by decide), ?_, ?_⟩
  · rw [h11.1.1]
    decide
  · rw [h11a.2.2.2.1]
    decide

/-- C8: configurations the target format cannot express are rejected with no
node emitted: a slice node whose parsed (and defaulted) step list contains a
negative entry raises rather than emitting a Slice node, steps that are
absent or null default to 1 and then a Slice node is emitted with an all-ones
steps tensor, and an L2Normalization node whose mode attribute is anything
but "channel" raises rather than emitting a normalization node. -/
theorem claim_C8 :
    (∀ (node : MxNode) (kwargs : Kwargs) (bs es : String)
       (starts ends steps0 : List (Option Int)),
      attrsGet node.attrs "begin" = some bs →
      convert_string_to_list bs = .ok starts →
      attrsGet node.attrs "end" = some es →
      convert_string_to_list es = .ok ends →
      convert_string_to_list (attrsGetD node.attrs "step" "[]") = .ok steps0 →
      starts.length = ends.length →
      ¬(steps0.length = 0 ∨ (steps0.length = 1 ∧ steps0.get? 0 = some none)) →
      steps0.length = starts.length →
      (steps0.map (fun x => x.getD 1)).any (· < 0) = true →
      convert_slice node kwargs
        = (kwargs.initializer, .error (.notImplementedError
            "slice operator does not support negative steps yet"))) ∧
    (∀ (node : MxNode) (kwargs : Kwargs) (bs es input0 : String)
       (starts ends : List (Option Int)),
      attrsGet node.attrs "begin" = some bs →
      convert_string_to_list bs = .ok starts →
      attrsGet node.attrs "end" = some es →
      convert_string_to_list es = .ok ends →
      convert_string_to_list (attrsGetD node.attrs "step" "[]") = .ok [] →
      starts.length = ends.length →
      (resolvedInputs node kwargs).get? 0 = some input0 →
      (convert_slice node kwargs).2
        = .ok [.vi ⟨node.name ++ "_0_s", TP_INT64, []⟩,
               .vi ⟨node.name ++ "_1_s", TP_INT64, []⟩,
               .vi ⟨node.name ++ "_len_s", TP_INT64, []⟩,
               .node (mkNode "Range"
                 [node.name ++ "_0_s", node.name ++ "_len_s",
                  node.name ++ "_1_s"] [node.name ++ "_axes"] "" []),
               .vi ⟨node.name ++ "_starts", TP_INT64, [starts.length]⟩,
               .vi ⟨node.name ++ "_ends", TP_INT64, [ends.length]⟩,
               .vi ⟨node.name ++ "_steps", TP_INT64, [starts.length]⟩,
               .node (mkNode "Slice"
                 [input0, node.name ++ "_starts", node.name ++ "_ends",
                  node.name ++ "_axes", node.name ++ "_steps"]
                 [node.name] node.name [])] ∧
      (convert_slice node kwargs).1
        = kwargs.initializer ++
          [⟨node.name ++ "_0_s", TP_INT64, [], [0]⟩,
           ⟨node.name ++ "_1_s", TP_INT64, [], [1]⟩,
           ⟨node.name ++ "_len_s", TP_INT64, [], [(starts.length : ℚ)]⟩,
           ⟨node.name ++ "_starts", TP_INT64, [starts.length],
            intsToRats (starts.map (fun x => x.getD 0))⟩,
           ⟨node.name ++ "_ends", TP_INT64, [ends.length],
            intsToRats (ends.map (fun x => x.getD (2 ^ 63 - 1)))⟩,
           ⟨node.name ++ "_steps", TP_INT64, [starts.length],
            intsToRats (List.replicate starts.length (1 : Int))⟩]) ∧
    (∀ (node : MxNode) (kwargs : Kwargs),
      (attrsGetD node.attrs "mode" "instance" ≠ "channel" →
        convert_l2normalization node kwargs
          = (kwargs.initializer, .error (.attributeError
              "L2Normalization: ONNX currently supports channel mode only"))) ∧
      (attrsGetD node.attrs "mode" "instance" = "channel" →
        convert_l2normalization node kwargs
          = (kwargs.initializer, .ok [.node (mkNode "LpNormalization"
              (resolvedInputs node kwargs) [node.name] node.name
              [("axis", .aInt 1)])]))) := by
  refine ⟨?_, ?_, ?_⟩
  · intro node kwargs bs es starts ends steps0 h1 h2 h3 h4 h5 hlen hdef hslen
      hneg
    unfold convert_slice
    dsimp only [get_inputs]
    rw [h1]
    dsimp only
    rw [h2]
    dsimp only
    rw [h3]
    dsimp only
    rw [h4]
    dsimp only
    rw [h5]
    dsimp only
    rw [if_neg (by omega : ¬starts.length ≠ ends.length)]
    rw [if_neg (fun hcon => hcon.2 hslen)]
    rw [if_neg hdef]
    rw [if_pos hneg]
  · intro node kwargs bs es input0 starts ends h1 h2 h3 h4 h5 hlen hi
    simp only [resolvedInputs] at hi
    unfold convert_slice
    dsimp only [get_inputs, create_const_scalar_node, create_tensor] at hi ⊢
    rw [h1]
    dsimp only
    rw [h2]
    dsimp only
    rw [h3]
    dsimp only
    rw [h4]
    dsimp only
    rw [h5]
    dsimp only
    rw [if_neg (by omega : ¬starts.length ≠ ends.length)]
    rw [if_neg (fun hcon => hcon.1 (Or.inl rfl))]
    rw [if_pos (show ([] : List (Option Int)).length = 0 ∨
      (([] : List (Option Int)).length = 1 ∧
       ([] : List (Option Int)).get? 0 = some none) from Or.inl rfl)]
    rw [show (List.replicate starts.length (some (1 : Int))).map
        (fun x => x.getD 1) = List.replicate starts.length 1 by simp]
    rw [show (List.replicate starts.length (1 : Int)).any
        (fun x => decide (x < 0)) = false by simp]
    rw [if_neg (by simp : ¬(false = true))]
    rw [hi]
    constructor
    · simp [intsToRats, hlen, npCode, TP_INT64]
    · simp [intsToRats, hlen, npCode, TP_INT64]
  · intro node kwargs
    constructor
    · intro h
      unfold convert_l2normalization
      dsimp only [get_inputs]
      rw [if_pos h]
    · intro h
      unfold convert_l2normalization
      dsimp only [get_inputs, resolvedInputs]
      rw [if_neg (fun hc => hc h)]

/-- Witness for C8: a slice with a negative step raises, a slice with no
step attribute emits a Slice with an all-ones steps tensor, and
L2Normalization rejects the default "instance" mode but accepts "channel". -/
theorem claim_C8_witness :
    convert_slice ⟨"sl", "slice", [(0, 0)],
      [("begin", "(0,0)"), ("end", "(2,2)"), ("step", "(1,-1)")]⟩
      ⟨["X"], [0], [], 12, 1, [], 0⟩
      = ([], .error (.notImplementedError
          "slice operator does not support negative steps yet")) ∧
    (convert_slice ⟨"sl", "slice", [(0, 0)],
      [("begin", "(0,0)"), ("end", "(2,2)")]⟩
      ⟨["X"], [0], [], 12, 1, [], 0⟩).1
      = [⟨"sl_0_s", TP_INT64, [], [0]⟩, ⟨"sl_1_s", TP_INT64, [], [1]⟩,
         ⟨"sl_len_s", TP_INT64, [], [2]⟩,
         ⟨"sl_starts", TP_INT64, [2], [0, 0]⟩,
         ⟨"sl_ends", TP_INT64, [2], [2, 2]⟩,
         ⟨"sl_steps", TP_INT64, [2], [1, 1]⟩] ∧
    convert_l2normalization ⟨"l2", "L2Normalization", [(0, 0)], []⟩
      ⟨["X"], [0], [], 12, 1, [], 0⟩
      = ([], .error (.attributeError
          "L2Normalization: ONNX currently supports channel mode only")) := by
  refine ⟨?_, ?_, ?_⟩
  · exact claim_C8.1 ⟨"sl", "slice", [(0, 0)],
      [("begin", "(0,0)"), ("end", "(2,2)"), ("step", "(1,-1)")]⟩
      ⟨["X"], [0], [], 12, 1, [], 0⟩ "(0,0)" "(2,2)"
      [some 0, some 0] [some 2, some 2] [some 1, some (-1)]
      (by decide) (by decide) (by decide) (by decide) (by decide) (by decide)
      (by decide) (by decide) (by decide)
  · have h := (claim_C8.2.1 ⟨"sl", "slice", [(0, 0)],
      [("begin", "(0,0)"), ("end", "(2,2)")]⟩
      ⟨["X"], [0], [], 12, 1, [], 0⟩ "(0,0)" "(2,2)" "X"
      [some 0, some 0] [some 2, some 2]
      (by decide) (by decide) (by decide) (by decide) (by decide) (by decide)
      (by decide)).2
    rw [h]
    decide
  · exact (claim_C8.2.2 ⟨"l2", "L2Normalization", [(0, 0)], []⟩
      ⟨["X"], [0], [], 12, 1, [], 0⟩).1 (by decide)

/-- Every op name a scalar wrapper rule passes to the helper has a fold. -/
theorem scalarFold_mem_isSome (opName nm : String) (sv : ℚ) (arr : List ℚ)
    (h : opName ∈ (["Mul", "Sub", "Add", "Div", "Pow"] : List String)) :
    ∃ vals, scalarFold opName nm sv arr = some vals := by
  fin_cases h
  · exact ⟨_, rfl⟩
  · exact ⟨_, rfl⟩
  · exact ⟨_, rfl⟩
  · exact ⟨_, rfl⟩
  · exact ⟨_, rfl⟩

unseal Rat.add Rat.mul Rat.inv Rat.sub in
/-- C1 counterexample: a reversed-subtract node whose NAME does not carry the
`_rminusscalar` marker folds constant-minus-scalar: with constant 5 and
scalar 10 the new initializer holds -5, not the 5 the claim requires for
every reversed-subtract node. -/
theorem claim_C1_counterexample :
    convert_rminus_scalar ⟨"y", "_rminus_scalar", [(0, 0)], [("scalar", "10")]⟩
      ⟨["x"], [0], [⟨"x", TP_FLOAT, [1], [5]⟩], 12, TP_FLOAT, [], 0⟩
      = ([⟨"x", TP_FLOAT, [1], [5]⟩, ⟨"x0", TP_FLOAT, [1], [-5]⟩],
         .ok [.vi ⟨"x0", TP_FLOAT, [1]⟩]) ∧
    (-5 : ℚ) ≠ 5 := by
  constructor
  · decide
  · decide

/-- C1 (amended): when the tensor input resolves to an initializer, the
helper appends exactly one new initializer holding the folded constant and
returns no computational node; the reversed-subtract operand order
(scalar minus constant) is honoured exactly for nodes whose NAME starts with
the `_rminusscalar` marker (the opcode-name convention); when the input is
not a resolved constant, one scalar initializer is appended and a single
binary node referencing it is returned. -/
theorem claim_C1 :
    (∀ (opName : String) (node : MxNode) (kwargs : Kwargs) (inp : String)
       (i : Initializer) (npdt idt : NPDtype) (sv : ℚ),
      opName ∈ (["Mul", "Sub", "Add", "Div", "Pow"] : List String) →
      tensorTypeToNp kwargs.in_type = some npdt →
      parseNpScalar (attrsGetD node.attrs "scalar" "1") npdt = some sv →
      (resolvedInputs node kwargs).get? 0 = some inp →
      kwargs.initializer.find? (fun j => j.name == inp) = some i →
      tensorTypeToNp i.data_type = some idt →
      ∃ vals,
        scalarFold opName node.name sv i.vals = some vals ∧
        scalar_op_helper node opName kwargs
          = (kwargs.initializer ++
              [⟨inp ++ toString kwargs.idx,
                npCode (scalarResultDType opName idt npdt), i.dims, vals⟩],
             .ok [.vi ⟨inp ++ toString kwargs.idx,
               npCode (scalarResultDType opName idt npdt), i.dims⟩])) ∧
    (∀ (node : MxNode) (kwargs : Kwargs) (inp : String) (i : Initializer)
       (npdt idt : NPDtype) (sv : ℚ),
      pyStartsWith node.name "_rminusscalar" = true →
      tensorTypeToNp kwargs.in_type = some npdt →
      parseNpScalar (attrsGetD node.attrs "scalar" "1") npdt = some sv →
      (resolvedInputs node kwargs).get? 0 = some inp →
      kwargs.initializer.find? (fun j => j.name == inp) = some i →
      tensorTypeToNp i.data_type = some idt →
      convert_rminus_scalar node kwargs
        = (kwargs.initializer ++
            [⟨inp ++ toString kwargs.idx,
              npCode (scalarResultDType "Sub" idt npdt), i.dims,
              i.vals.map (fun v => sv - v)⟩],
           .ok [.vi ⟨inp ++ toString kwargs.idx,
             npCode (scalarResultDType "Sub" idt npdt), i.dims⟩])) ∧
    (∀ (opName : String) (node : MxNode) (kwargs : Kwargs) (inp : String)
       (npdt : NPDtype) (sv : ℚ),
      opName ∈ (["Mul", "Sub", "Add", "Div", "Pow"] : List String) →
      tensorTypeToNp kwargs.in_type = some npdt →
      parseNpScalar (attrsGetD node.attrs "scalar" "1") npdt = some sv →
      (resolvedInputs node kwargs).get? 0 = some inp →
      kwargs.initializer.find? (fun j => j.name == inp) = none →
      scalar_op_helper node opName kwargs
        = (kwargs.initializer ++
            [⟨"scalar_op" ++ toString kwargs.idx, kwargs.in_type, [1], [sv]⟩],
           .ok [.vi ⟨"scalar_op" ++ toString kwargs.idx, kwargs.in_type, [1]⟩,
                .node (mkNode opName
                  [inp, "scalar_op" ++ toString kwargs.idx]
                  [node.name] node.name [])])) := by
  refine ⟨?_, ?_, ?_⟩
  · intro opName node kwargs inp i npdt idt sv hmem htype hparse hinp hfind
      hidt
    obtain ⟨vals, hvals⟩ := scalarFold_mem_isSome opName node.name sv i.vals
      hmem
    refine ⟨vals, hvals, ?_⟩
    unfold scalar_op_helper
    simp only [resolvedInputs] at hinp
    dsimp only [get_inputs] at hinp ⊢
    rw [htype]
    dsimp only
    rw [hparse]
    dsimp only
    rw [hinp]
    dsimp only
    rw [hfind]
    dsimp only
    rw [hidt]
    dsimp only
    rw [hvals]
  · intro node kwargs inp i npdt idt sv hmark htype hparse hinp hfind hidt
    unfold convert_rminus_scalar scalar_op_helper
    simp only [resolvedInputs] at hinp
    dsimp only [get_inputs] at hinp ⊢
    rw [htype]
    dsimp only
    rw [hparse]
    dsimp only
    rw [hinp]
    dsimp only
    rw [hfind]
    dsimp only
    rw [hidt]
    dsimp only
    rw [show scalarFold "Sub" node.name sv i.vals
        = some (i.vals.map (fun v => sv - v)) by
      unfold scalarFold
      rw [if_neg (by decide : ¬("Sub" : String) = "Mul"), if_pos rfl, if_pos
        hmark]]
  · intro opName node kwargs inp npdt sv hmem htype hparse hinp hfind
    unfold scalar_op_helper
    simp only [resolvedInputs] at hinp
    dsimp only [get_inputs] at hinp ⊢
    rw [htype]
    dsimp only
    rw [hparse]
    dsimp only
    rw [hinp]
    dsimp only
    rw [hfind]

unseal Rat.add Rat.mul Rat.inv Rat.sub in
/-- Witness for C1: folding `3.0 * 2.0` yields the single initializer 6.0
and no node; a conventionally named reversed-subtract of 5 under scalar 10
folds to 5; a non-constant input yields one scalar initializer and one
binary node. -/
theorem claim_C1_witness :
    scalar_op_helper ⟨"y", "_mul_scalar", [(0, 0)], [("scalar", "2.0")]⟩ "Mul"
      ⟨["x"], [0], [⟨"x", TP_FLOAT, [1], [3]⟩], 12, TP_FLOAT, [], 0⟩
      = ([⟨"x", TP_FLOAT, [1], [3]⟩, ⟨"x0", TP_FLOAT, [1], [6]⟩],
         .ok [.vi ⟨"x0", TP_FLOAT, [1]⟩]) ∧
    convert_rminus_scalar
      ⟨"_rminusscalar0", "_rminus_scalar", [(0, 0)], [("scalar", "10")]⟩
      ⟨["x"], [0], [⟨"x", TP_FLOAT, [1], [5]⟩], 12, TP_FLOAT, [], 0⟩
      = ([⟨"x", TP_FLOAT, [1], [5]⟩, ⟨"x0", TP_FLOAT, [1], [5]⟩],
         .ok [.vi ⟨"x0", TP_FLOAT, [1]⟩]) ∧
    scalar_op_helper ⟨"y", "_mul_scalar", [(0, 0)], [("scalar", "2.0")]⟩ "Mul"
      ⟨["x"], [0], [], 12, TP_FLOAT, [], 0⟩
      = ([⟨"scalar_op0", TP_FLOAT, [1], [2]⟩],
         .ok [.vi ⟨"scalar_op0", TP_FLOAT, [1]⟩,
              .node (mkNode "Mul" ["x", "scalar_op0"] ["y"] "y" [])]) := by
  refine ⟨?_, ?_, ?_⟩
  · obtain ⟨vals, hv, heq⟩ := claim_C1.1 "Mul"
      ⟨"y", "_mul_scalar", [(0, 0)], [("scalar", "2.0")]⟩
      ⟨["x"], [0], [⟨"x", TP_FLOAT, [1], [3]⟩], 12, TP_FLOAT, [], 0⟩
      "x" ⟨"x", TP_FLOAT, [1], [3]⟩ .float32 .float32 2
      (by decide) (by decide) (by decide) (by decide) (by decide) (by decide)
    have h6 : scalarFold "Mul" "y" 2 [3] = some [6] := by decide
    rw [hv] at h6
    injection h6 with h7
    subst h7
    exact heq
  · have heq := claim_C1.2.1
      ⟨"_rminusscalar0", "_rminus_scalar", [(0, 0)], [("scalar", "10")]⟩
      ⟨["x"], [0], [⟨"x", TP_FLOAT, [1], [5]⟩], 12, TP_FLOAT, [], 0⟩
      "x" ⟨"x", TP_FLOAT, [1], [5]⟩ .float32 .float32 10
      (by decide) (by decide) (by decide) (by decide) (by decide) (by decide)
    rw [heq]
    decide
  · exact claim_C1.2.2 "Mul"
      ⟨"y", "_mul_scalar", [(0, 0)], [("scalar", "2.0")]⟩
      ⟨["x"], [0], [], 12, TP_FLOAT, [], 0⟩ "x" .float32 2
      (by decide) (by decide) (by decide) (by decide) (by decide)

/-- C9: every tensor constant created with the float16 dtype stores the
values' 16-bit patterns viewed as unsigned integers, the `_greater_scalar`
rule materializes its scalar the same way when the declared input type is
float16, and the stored pattern differs from the native numeric literal. -/
theorem claim_C9 :
    (∀ (l : List ℚ) (nm : String) (inits : List Initializer),
      create_tensor l nm inits .float16
        = (.vi ⟨nm, TP_FLOAT16, [l.length]⟩,
           inits ++ [⟨nm, TP_FLOAT16, [l.length],
             l.map (fun q => ((float16Bits q : Nat) : ℚ))⟩])) ∧
    (∀ (node : MxNode) (kwargs : Kwargs) (s : String) (q : ℚ)
       (input0 : String),
      kwargs.in_type = TP_FLOAT16 →
      attrsGet node.attrs "scalar" = some s →
      parsePyFloat s = some q →
      (resolvedInputs node kwargs).get? 0 = some input0 →
      (convert_greater_scalar node kwargs).2
        = .ok [.node (mkNode "Shape" [input0] [node.name ++ "_shape"] "" []),
               .node (mkNode "ConstantOfShape" [node.name ++ "_shape"]
                 [node.name ++ "_rhs"] ""
                 [("value", .aTensor [1] TP_FLOAT16
                    [((float16Bits q : Nat) : ℚ)])]),
               .node (mkNode "Greater" [input0, node.name ++ "_rhs"]
                 [node.name ++ "_gt"] "" []),
               .node (mkNode "Cast" [node.name ++ "_gt"] [node.name]
                 node.name [("to", .aInt (TP_FLOAT16 : Int))])]) := by
  constructor
  · intro l nm inits
    rfl
  · intro node kwargs s q input0 htype hscalar hq hinp
    unfold convert_greater_scalar
    simp only [resolvedInputs] at hinp
    dsimp only [get_inputs] at hinp ⊢
    rw [hscalar]
    dsimp only
    rw [hq]
    dsimp only
    rw [htype]
    rw [show tensorTypeToNp TP_FLOAT16 = some NPDtype.float16 from rfl]
    dsimp only
    rw [hinp]
    dsimp only
    rw [if_neg (by decide : ¬npIsInt NPDtype.float16 = true), if_pos rfl]

unseal Rat.add Rat.mul Rat.inv Rat.sub in
/-- Witness for C9: the half constant 2.0 is stored as the pattern 16384,
not as the literal 2, both through `create_tensor` and through the
`_greater_scalar` rule. -/
theorem claim_C9_witness :
    (create_tensor [2] "c" [] .float16).2
      = [⟨"c", TP_FLOAT16, [1], [16384]⟩] ∧
    (16384 : ℚ) ≠ 2 ∧
    (convert_greater_scalar
      ⟨"gt", "_greater_scalar", [(0, 0)], [("scalar", "2.0")]⟩
      ⟨["X"], [0], [], 12, TP_FLOAT16, [], 0⟩).2
      = .ok [.node (mkNode "Shape" ["X"] ["gt_shape"] "" []),
             .node (mkNode "ConstantOfShape" ["gt_shape"] ["gt_rhs"] ""
               [("value", .aTensor [1] TP_FLOAT16 [16384])]),
             .node (mkNode "Greater" ["X", "gt_rhs"] ["gt_gt"] "" []),
             .node (mkNode "Cast" ["gt_gt"] ["gt"] "gt"
               [("to", .aInt (TP_FLOAT16 : Int))])] := by
  refine ⟨?_, by decide, ?_⟩
  · rw [(claim_C9.1 [2] "c" [])]
    decide
  · have h := claim_C9.2
      ⟨"gt", "_greater_scalar", [(0, 0)], [("scalar", "2.0")]⟩
      ⟨["X"], [0], [], 12, TP_FLOAT16, [], 0⟩ "2.0" 2 "X"
      (by decide) (by decide) (by decide) (by decide)
    rw [h]
    decide

/-- Pad version pair: attribute lowering below opset 11, extra-input lowering
from 11, and both evaluate to the same constant padding. -/
theorem pad_version_pair (node : MxNode) (pn : List String) (il : List Nat)
    (ity : Nat) (ish : List (List Int)) (ix : Nat) (v1 v2 : Nat)
    (dataName pws : String) (mxl : List (Option Int)) (pl : List Int)
    (cvs : String) (cv : ℚ) (t : Tensor)
    (hres : node.inputs.map (fun ip => pn.getD (il.getD ip.1 0) "")
      = [dataName])
    (hnp : (dataName == node.name ++ "_pads") = false)
    (hnc : (dataName == node.name ++ "_const") = false)
    (hpw : attrsGet node.attrs "pad_width" = some pws)
    (hcsl : convert_string_to_list pws = .ok mxl)
    (hsome : allSomeList mxl = some pl)
    (hmode : attrsGet node.attrs "mode" = some "constant")
    (hcvs : attrsGet node.attrs "constant_value" = some cvs)
    (hcv : parsePyFloat cvs = some cv)
    (hv1 : v1 < 11) (hv2 : 11 ≤ v2) :
    convert_pad node ⟨pn, il, [], v1, ity, ish, ix⟩
      = ([], .ok [.node (mkNode "Pad" [dataName] [node.name] node.name
          [("mode", .aStr "constant"), ("value", .aFloat cv),
           ("pads", .aInts (transform_padding pl))])]) ∧
    convert_pad node ⟨pn, il, [], v2, ity, ish, ix⟩
      = ([⟨node.name ++ "_pads", TP_INT64, [(transform_padding pl).length],
           intsToRats (transform_padding pl)⟩,
          ⟨node.name ++ "_const", TP_FLOAT, [], [cv]⟩],
         .ok [.vi ⟨node.name ++ "_pads", TP_INT64,
                [(transform_padding pl).length]⟩,
              .vi ⟨node.name ++ "_const", TP_FLOAT, []⟩,
              .node (mkNode "Pad"
                [dataName, node.name ++ "_pads", node.name ++ "_const"]
                [node.name] node.name [("mode", .aStr "constant")])]) ∧
    runLowering expStub (convert_pad node ⟨pn, il, [], v1, ity, ish, ix⟩)
        [(dataName, t)] node.name = padConst t (transform_padding pl) cv ∧
    runLowering expStub (convert_pad node ⟨pn, il, [], v2, ity, ish, ix⟩)
        [(dataName, t)] node.name = padConst t (transform_padding pl) cv := by
  have hs1 : convert_pad node ⟨pn, il, [], v1, ity, ish, ix⟩
      = ([], .ok [.node (mkNode "Pad" [dataName] [node.name] node.name
          [("mode", .aStr "constant"), ("value", .aFloat cv),
           ("pads", .aInts (transform_padding pl))])]) := by
    unfold convert_pad
    dsimp only [get_inputs]
    rw [hres, hpw]
    dsimp only
    rw [hcsl]
    dsimp only
    rw [hsome]
    dsimp only
    rw [hmode]
    dsimp only
    rw [hcvs]
    dsimp only
    rw [hcv]
    dsimp only
    rw [if_neg (by omega : ¬ v1 ≥ 11), if_pos rfl]
  have hs2 : convert_pad node ⟨pn, il, [], v2, ity, ish, ix⟩
      = ([⟨node.name ++ "_pads", TP_INT64, [(transform_padding pl).length],
           intsToRats (transform_padding pl)⟩,
          ⟨node.name ++ "_const", TP_FLOAT, [], [cv]⟩],
         .ok [.vi ⟨node.name ++ "_pads", TP_INT64,
                [(transform_padding pl).length]⟩,
              .vi ⟨node.name ++ "_const", TP_FLOAT, []⟩,
              .node (mkNode "Pad"
                [dataName, node.name ++ "_pads", node.name ++ "_const"]
                [node.name] node.name [("mode", .aStr "constant")])]) := by
    unfold convert_pad
    dsimp only [get_inputs]
    rw [hres, hpw]
    dsimp only
    rw [hcsl]
    dsimp only
    rw [hsome]
    dsimp only
    rw [hmode]
    dsimp only
    rw [hcvs]
    dsimp only
    rw [hcv]
    dsimp only
    rw [if_pos (by omega : v2 ≥ 11)]
    dsimp only [create_const_node, create_const_scalar_node]
    rw [if_pos rfl]
    rfl
  refine ⟨hs1, hs2, ?_, ?_⟩
  · rw [hs1]
    cases hp : padConst t (transform_padding pl) cv with
    | error e =>
      simp [runLowering, evalItems, evalNode, mkNode, envInput, envGet,
        nAttrStr, nAttrInts, nAttrFloat, exceptBindOk, exceptBindErr, hp]
    | ok r =>
      simp [runLowering, evalItems, evalNode, mkNode, envInput, envGet,
        nAttrStr, nAttrInts, nAttrFloat, exceptBindOk, exceptBindErr, hp]
  · rw [hs2]
    have hpc := strAppendNeRight node.name "_pads" "_const" (by decide)
    cases hp : padConst t (transform_padding pl) cv with
    | error e =>
      simp [runLowering, evalItems, evalNode, mkNode, envInput, envGet,
        nAttrStr, nAttrInts, nAttrFloat, scalarVal, hnp, hnc, hpc,
        exceptBindOk, exceptBindErr, qToInt_intsToRats, hp]
    | ok r =>
      simp [runLowering, evalItems, evalNode, mkNode, envInput, envGet,
        nAttrStr, nAttrInts, nAttrFloat, scalarVal, hnp, hnc, hpc,
        exceptBindOk, exceptBindErr, qToInt_intsToRats, hp]

/-- Clip version pair: attribute bounds below opset 11, extra scalar inputs
from 11, identical clamping either way. -/
theorem clip_version_pair (node : MxNode) (pn : List String) (il : List Nat)
    (ity : Nat) (ish : List (List Int)) (ix : Nat) (v1 v2 : Nat)
    (dataName smin smax : String) (amin amax : ℚ) (t : Tensor)
    (hres : node.inputs.map (fun ip => pn.getD (il.getD ip.1 0) "")
      = [dataName])
    (hnm : (dataName == node.name ++ "_min") = false)
    (hnx : (dataName == node.name ++ "_max") = false)
    (hamin : attrsGet node.attrs "a_min" = some smin)
    (hpmin : parsePyFloat smin = some amin)
    (hamax : attrsGet node.attrs "a_max" = some smax)
    (hpmax : parsePyFloat smax = some amax)
    (hv1 : v1 < 11) (hv2 : 11 ≤ v2) :
    convert_clip node ⟨pn, il, [], v1, ity, ish, ix⟩
      = ([], .ok [.node (mkNode "Clip" [dataName] [node.name] node.name
          [("min", .aFloat amin), ("max", .aFloat amax)])]) ∧
    convert_clip node ⟨pn, il, [], v2, ity, ish, ix⟩
      = ([⟨node.name ++ "_min", TP_FLOAT, [], [amin]⟩,
          ⟨node.name ++ "_max", TP_FLOAT, [], [amax]⟩],
         .ok [.vi ⟨node.name ++ "_min", TP_FLOAT, []⟩,
              .vi ⟨node.name ++ "_max", TP_FLOAT, []⟩,
              .node (mkNode "Clip"
                [dataName, node.name ++ "_min", node.name ++ "_max"]
                [node.name] node.name [])]) ∧
    runLowering expStub (convert_clip node ⟨pn, il, [], v1, ity, ish, ix⟩)
        [(dataName, t)] node.name
      = .ok ⟨t.shape, t.data.map (fun x => min amax (max amin x))⟩ ∧
    runLowering expStub (convert_clip node ⟨pn, il, [], v2, ity, ish, ix⟩)
        [(dataName, t)] node.name
      = .ok ⟨t.shape, t.data.map (fun x => min amax (max amin x))⟩ := by
  have hs1 : convert_clip node ⟨pn, il, [], v1, ity, ish, ix⟩
      = ([], .ok [.node (mkNode "Clip" [dataName] [node.name] node.name
          [("min", .aFloat amin), ("max", .aFloat amax)])]) := by
    unfold convert_clip
    dsimp only [get_inputs]
    rw [hres, hamin]
    dsimp only
    rw [hpmin]
    dsimp only
    rw [hamax]
    dsimp only
    rw [hpmax]
    dsimp only
    rw [if_neg (by omega : ¬ v1 ≥ 11)]
  have hs2 : convert_clip node ⟨pn, il, [], v2, ity, ish, ix⟩
      = ([⟨node.name ++ "_min", TP_FLOAT, [], [amin]⟩,
          ⟨node.name ++ "_max", TP_FLOAT, [], [amax]⟩],
         .ok [.vi ⟨node.name ++ "_min", TP_FLOAT, []⟩,
              .vi ⟨node.name ++ "_max", TP_FLOAT, []⟩,
              .node (mkNode "Clip"
                [dataName, node.name ++ "_min", node.name ++ "_max"]
                [node.name] node.name [])]) := by
    unfold convert_clip
    dsimp only [get_inputs]
    rw [hres, hamin]
    dsimp only
    rw [hpmin]
    dsimp only
    rw [hamax]
    dsimp only
    rw [hpmax]
    dsimp only
    rw [if_pos (by omega : v2 ≥ 11)]
    dsimp only [create_const_scalar_node]
    rfl
  have hmx := strAppendNeRight node.name "_min" "_max" (by decide)
  refine ⟨hs1, hs2, ?_, ?_⟩
  · rw [hs1]
    simp [runLowering, evalItems, evalNode, mkNode, envInput, envGet,
      nAttrStr, nAttrInts, nAttrFloat, scalarVal, exceptBindOk, exceptBindErr]
  · rw [hs2]
    simp [runLowering, evalItems, evalNode, mkNode, envInput, envGet,
      nAttrStr, nAttrInts, nAttrFloat, scalarVal, hnm, hnx, hmx,
      exceptBindOk, exceptBindErr]

/-- Dropout version pair: ratio attribute below opset 12, extra
scalar-initializer input from 12, the identity either way in inference
mode. -/
theorem dropout_version_pair (node : MxNode) (pn : List String) (il : List Nat)
    (ity : Nat) (ish : List (List Int)) (ix : Nat) (v1 v2 : Nat)
    (dataName sp : String) (prob : ℚ) (t : Tensor)
    (hres : node.inputs.map (fun ip => pn.getD (il.getD ip.1 0) "")
      = [dataName])
    (hp : attrsGet node.attrs "p" = some sp)
    (hprob : parsePyFloat sp = some prob)
    (hv1 : v1 < 12) (hv2 : 12 ≤ v2) :
    convert_dropout node ⟨pn, il, [], v1, ity, ish, ix⟩
      = ([], .ok [.node (mkNode "Dropout" [dataName] [node.name] node.name
          [("ratio", .aFloat prob)])]) ∧
    convert_dropout node ⟨pn, il, [], v2, ity, ish, ix⟩
      = ([⟨node.name ++ "_ratio0", TP_FLOAT, [], [prob]⟩],
         .ok [.vi ⟨node.name ++ "_ratio0", TP_FLOAT, []⟩,
              .node (mkNode "Dropout" [dataName, node.name ++ "_ratio0"]
                [node.name] node.name [])]) ∧
    runLowering expStub (convert_dropout node ⟨pn, il, [], v1, ity, ish, ix⟩)
        [(dataName, t)] node.name = .ok t ∧
    runLowering expStub (convert_dropout node ⟨pn, il, [], v2, ity, ish, ix⟩)
        [(dataName, t)] node.name = .ok t := by
  have hs1 : convert_dropout node ⟨pn, il, [], v1, ity, ish, ix⟩
      = ([], .ok [.node (mkNode "Dropout" [dataName] [node.name] node.name
          [("ratio", .aFloat prob)])]) := by
    unfold convert_dropout
    dsimp only [get_inputs]
    rw [hres, hp]
    dsimp only
    rw [hprob]
    dsimp only
    rw [if_neg (by omega : ¬ v1 ≥ 12)]
  have hs2 : convert_dropout node ⟨pn, il, [], v2, ity, ish, ix⟩
      = ([⟨node.name ++ "_ratio0", TP_FLOAT, [], [prob]⟩],
         .ok [.vi ⟨node.name ++ "_ratio0", TP_FLOAT, []⟩,
              .node (mkNode "Dropout" [dataName, node.name ++ "_ratio0"]
                [node.name] node.name [])]) := by
    unfold convert_dropout
    dsimp only [get_inputs]
    rw [hres, hp]
    dsimp only
    rw [hprob]
    dsimp only
    rw [if_pos (by omega : v2 ≥ 12)]
    dsimp only [create_const_scalar_node]
    rfl
  refine ⟨hs1, hs2, ?_, ?_⟩
  · rw [hs1]
    simp [runLowering, evalItems, evalNode, mkNode, envInput, envGet,
      exceptBindOk, exceptBindErr]
  · rw [hs2]
    simp [runLowering, evalItems, evalNode, mkNode, envInput, envGet,
      exceptBindOk, exceptBindErr]

/-- TopK version pair: the count k as a typed attribute below opset 10, as an
extra scalar-initializer input from 10, same top-k values either way. -/
theorem topk_version_pair (node : MxNode) (pn : List String) (il : List Nat)
    (ity : Nat) (ish : List (List Int)) (ix : Nat) (v1 v2 : Nat)
    (dataName : String) (axis k : Int) (t : Tensor)
    (hres : node.inputs.map (fun ip => pn.getD (il.getD ip.1 0) "")
      = [dataName])
    (hnk : (dataName == node.name ++ "_k") = false)
    (haxis : pyIntAttrD node.attrs "axis" (-1) = .ok axis)
    (hk : pyIntAttrD node.attrs "k" 1 = .ok k)
    (hret : attrsGet node.attrs "ret_typ" = some "both")
    (hv1 : v1 < 10) (hv2 : 10 ≤ v2) :
    convert_topk node ⟨pn, il, [], v1, ity, ish, ix⟩
      = ([], .ok [.node (mkNode "TopK" [dataName]
          [node.name, node.name ++ "_output1"] node.name
          [("axis", .aInt axis), ("k", .aInt k)])]) ∧
    convert_topk node ⟨pn, il, [], v2, ity, ish, ix⟩
      = ([⟨node.name ++ "_k", TP_INT64, [], [(k : ℚ)]⟩],
         .ok [.vi ⟨node.name ++ "_k", TP_INT64, []⟩,
              .node (mkNode "TopK" [dataName, node.name ++ "_k"]
                [node.name, node.name ++ "_output1"] node.name
                [("axis", .aInt axis)])]) ∧
    runLowering expStub (convert_topk node ⟨pn, il, [], v1, ity, ish, ix⟩)
        [(dataName, t)] node.name = evalTopK t axis k ∧
    runLowering expStub (convert_topk node ⟨pn, il, [], v2, ity, ish, ix⟩)
        [(dataName, t)] node.name = evalTopK t axis k := by
  have hs1 : convert_topk node ⟨pn, il, [], v1, ity, ish, ix⟩
      = ([], .ok [.node (mkNode "TopK" [dataName]
          [node.name, node.name ++ "_output1"] node.name
          [("axis", .aInt axis), ("k", .aInt k)])]) := by
    unfold convert_topk
    dsimp only [get_inputs]
    rw [hres, haxis]
    dsimp only
    rw [hk]
    dsimp only
    rw [hret, if_pos rfl, if_neg (by omega : ¬ v1 ≥ 10)]
  have hs2 : convert_topk node ⟨pn, il, [], v2, ity, ish, ix⟩
      = ([⟨node.name ++ "_k", TP_INT64, [], [(k : ℚ)]⟩],
         .ok [.vi ⟨node.name ++ "_k", TP_INT64, []⟩,
              .node (mkNode "TopK" [dataName, node.name ++ "_k"]
                [node.name, node.name ++ "_output1"] node.name
                [("axis", .aInt axis)])]) := by
    unfold convert_topk
    dsimp only [get_inputs]
    rw [hres, haxis]
    dsimp only
    rw [hk]
    dsimp only
    rw [hret, if_pos rfl, if_pos (by omega : v2 ≥ 10)]
    dsimp only [create_const_scalar_node]
    rfl
  refine ⟨hs1, hs2, ?_, ?_⟩
  · rw [hs1]
    cases hp : evalTopK t axis k with
    | error e =>
      simp [runLowering, evalItems, evalNode, mkNode, envInput, envGet,
        nAttrInt, exceptBindOk, exceptBindErr, hp]
    | ok r =>
      simp [runLowering, evalItems, evalNode, mkNode, envInput, envGet,
        nAttrInt, exceptBindOk, exceptBindErr, hp]
  · rw [hs2]
    cases hp : evalTopK t axis k with
    | error e =>
      simp [runLowering, evalItems, evalNode, mkNode, envInput, envGet,
        nAttrInt, scalarVal, qToInt_intCast, hnk,
        exceptBindOk, exceptBindErr, hp]
    | ok r =>
      simp [runLowering, evalItems, evalNode, mkNode, envInput, envGet,
        nAttrInt, scalarVal, qToInt_intCast, hnk,
        exceptBindOk, exceptBindErr, hp]

/-- C3: for every Pad, clip, Dropout and top-k node, lowering below the
rule's version threshold (11 for pad and clip, 12 for dropout, 10 for the
top-k count) emits a single node carrying the pads/constant value, min/max
bounds, ratio, or count as typed node attributes, while lowering at or above
the threshold emits the operator with those values supplied as extra
constant-tensor inputs appended as fresh initializers; for any fixed
concrete input tensor the two structurally different lowerings evaluate to
the same result. -/
theorem claim_C3 :
    (∀ (node : MxNode) (pn : List String) (il : List Nat) (ity : Nat)
       (ish : List (List Int)) (ix : Nat) (v1 v2 : Nat)
       (dataName pws : String) (mxl : List (Option Int)) (pl : List Int)
       (cvs : String) (cv : ℚ) (t : Tensor),
      node.inputs.map (fun ip => pn.getD (il.getD ip.1 0) "") = [dataName] →
      (dataName == node.name ++ "_pads") = false →
      (dataName == node.name ++ "_const") = false →
      attrsGet node.attrs "pad_width" = some pws →
      convert_string_to_list pws = .ok mxl →
      allSomeList mxl = some pl →
      attrsGet node.attrs "mode" = some "constant" →
      attrsGet node.attrs "constant_value" = some cvs →
      parsePyFloat cvs = some cv →
      v1 < 11 → 11 ≤ v2 →
      convert_pad node ⟨pn, il, [], v1, ity, ish, ix⟩
        = ([], .ok [.node (mkNode "Pad" [dataName] [node.name] node.name
            [("mode", .aStr "constant"), ("value", .aFloat cv),
             ("pads", .aInts (transform_padding pl))])]) ∧
      convert_pad node ⟨pn, il, [], v2, ity, ish, ix⟩
        = ([⟨node.name ++ "_pads", TP_INT64, [(transform_padding pl).length],
             intsToRats (transform_padding pl)⟩,
            ⟨node.name ++ "_const", TP_FLOAT, [], [cv]⟩],
           .ok [.vi ⟨node.name ++ "_pads", TP_INT64,
                  [(transform_padding pl).length]⟩,
                .vi ⟨node.name ++ "_const", TP_FLOAT, []⟩,
                .node (mkNode "Pad"
                  [dataName, node.name ++ "_pads", node.name ++ "_const"]
                  [node.name] node.name [("mode", .aStr "constant")])]) ∧
      runLowering expStub (convert_pad node ⟨pn, il, [], v1, ity, ish, ix⟩)
          [(dataName, t)] node.name = padConst t (transform_padding pl) cv ∧
      runLowering expStub (convert_pad node ⟨pn, il, [], v2, ity, ish, ix⟩)
          [(dataName, t)] node.name = padConst t (transform_padding pl) cv) ∧
    (∀ (node : MxNode) (pn : List String) (il : List Nat) (ity : Nat)
       (ish : List (List Int)) (ix : Nat) (v1 v2 : Nat)
       (dataName smin smax : String) (amin amax : ℚ) (t : Tensor),
      node.inputs.map (fun ip => pn.getD (il.getD ip.1 0) "") = [dataName] →
      (dataName == node.name ++ "_min") = false →
      (dataName == node.name ++ "_max") = false →
      attrsGet node.attrs "a_min" = some smin →
      parsePyFloat smin = some amin →
      attrsGet node.attrs "a_max" = some smax →
      parsePyFloat smax = some amax →
      v1 < 11 → 11 ≤ v2 →
      convert_clip node ⟨pn, il, [], v1, ity, ish, ix⟩
        = ([], .ok [.node (mkNode "Clip" [dataName] [node.name] node.name
            [("min", .aFloat amin), ("max", .aFloat amax)])]) ∧
      convert_clip node ⟨pn, il, [], v2, ity, ish, ix⟩
        = ([⟨node.name ++ "_min", TP_FLOAT, [], [amin]⟩,
            ⟨node.name ++ "_max", TP_FLOAT, [], [amax]⟩],
           .ok [.vi ⟨node.name ++ "_min", TP_FLOAT, []⟩,
                .vi ⟨node.name ++ "_max", TP_FLOAT, []⟩,
                .node (mkNode "Clip"
                  [dataName, node.name ++ "_min", node.name ++ "_max"]
                  [node.name] node.name [])]) ∧
      runLowering expStub (convert_clip node ⟨pn, il, [], v1, ity, ish, ix⟩)
          [(dataName, t)] node.name
        = .ok ⟨t.shape, t.data.map (fun x => min amax (max amin x))⟩ ∧
      runLowering expStub (convert_clip node ⟨pn, il, [], v2, ity, ish, ix⟩)
          [(dataName, t)] node.name
        = .ok ⟨t.shape, t.data.map (fun x => min amax (max amin x))⟩) ∧
    (∀ (node : MxNode) (pn : List String) (il : List Nat) (ity : Nat)
       (ish : List (List Int)) (ix : Nat) (v1 v2 : Nat) (dataName sp : String)
       (prob : ℚ) (t : Tensor),
      node.inputs.map (fun ip => pn.getD (il.getD ip.1 0) "") = [dataName] →
      attrsGet node.attrs "p" = some sp →
      parsePyFloat sp = some prob →
      v1 < 12 → 12 ≤ v2 →
      convert_dropout node ⟨pn, il, [], v1, ity, ish, ix⟩
        = ([], .ok [.node (mkNode "Dropout" [dataName] [node.name] node.name
            [("ratio", .aFloat prob)])]) ∧
      convert_dropout node ⟨pn, il, [], v2, ity, ish, ix⟩
        = ([⟨node.name ++ "_ratio0", TP_FLOAT, [], [prob]⟩],
           .ok [.vi ⟨node.name ++ "_ratio0", TP_FLOAT, []⟩,
                .node (mkNode "Dropout" [dataName, node.name ++ "_ratio0"]
                  [node.name] node.name [])]) ∧
      runLowering expStub (convert_dropout node ⟨pn, il, [], v1, ity, ish, ix⟩)
          [(dataName, t)] node.name = .ok t ∧
      runLowering expStub (convert_dropout node ⟨pn, il, [], v2, ity, ish, ix⟩)
          [(dataName, t)] node.name = .ok t) ∧
    (∀ (node : MxNode) (pn : List String) (il : List Nat) (ity : Nat)
       (ish : List (List Int)) (ix : Nat) (v1 v2 : Nat) (dataName : String)
       (axis k : Int) (t : Tensor),
      node.inputs.map (fun ip => pn.getD (il.getD ip.1 0) "") = [dataName] →
      (dataName == node.name ++ "_k") = false →
      pyIntAttrD node.attrs "axis" (-1) = .ok axis →
      pyIntAttrD node.attrs "k" 1 = .ok k →
      attrsGet node.attrs "ret_typ" = some "both" →
      v1 < 10 → 10 ≤ v2 →
      convert_topk node ⟨pn, il, [], v1, ity, ish, ix⟩
        = ([], .ok [.node (mkNode "TopK" [dataName]
            [node.name, node.name ++ "_output1"] node.name
            [("axis", .aInt axis), ("k", .aInt k)])]) ∧
      convert_topk node ⟨pn, il, [], v2, ity, ish, ix⟩
        = ([⟨node.name ++ "_k", TP_INT64, [], [(k : ℚ)]⟩],
           .ok [.vi ⟨node.name ++ "_k", TP_INT64, []⟩,
                .node (mkNode "TopK" [dataName, node.name ++ "_k"]
                  [node.name, node.name ++ "_output1"] node.name
                  [("axis", .aInt axis)])]) ∧
      runLowering expStub (convert_topk node ⟨pn, il, [], v1, ity, ish, ix⟩)
          [(dataName, t)] node.name = evalTopK t axis k ∧
      runLowering expStub (convert_topk node ⟨pn, il, [], v2, ity, ish, ix⟩)
          [(dataName, t)] node.name = evalTopK t axis k) := by
  refine ⟨?_, ?_, ?_, ?_⟩
  · intro node pn il ity ish ix v1 v2 dataName pws mxl pl cvs cv t h1 h2 h3 h4
      h5 h6 h7 h8 h9 h10 h11
    exact pad_version_pair node pn il ity ish ix v1 v2 dataName pws mxl pl cvs
      cv t h1 h2 h3 h4 h5 h6 h7 h8 h9 h10 h11
  · intro node pn il ity ish ix v1 v2 dataName smin smax amin amax t h1 h2 h3
      h4 h5 h6 h7 h8 h9
    exact clip_version_pair node pn il ity ish ix v1 v2 dataName smin smax
      amin amax t h1 h2 h3 h4 h5 h6 h7 h8 h9
  · intro node pn il ity ish ix v1 v2 dataName sp prob t h1 h2 h3 h4 h5
    exact dropout_version_pair node pn il ity ish ix v1 v2 dataName sp prob t
      h1 h2 h3 h4 h5
  · intro node pn il ity ish ix v1 v2 dataName axis k t h1 h2 h3 h4 h5 h6 h7
    exact topk_version_pair node pn il ity ish ix v1 v2 dataName axis k t h1
      h2 h3 h4 h5 h6 h7

unseal Rat.add Rat.mul Rat.inv Rat.sub in
/-- Witness for C3: a concrete pad, clip, dropout and top-k node, each
lowered once below and once at its version threshold, evaluating to the same
concrete tensor both ways. -/
theorem claim_C3_witness :
    runLowering expStub (convert_pad
        ⟨"pd", "Pad", [(0, 0)],
         [("pad_width", "(1,2)"), ("mode", "constant"),
          ("constant_value", "7")]⟩ ⟨["X"], [0], [], 9, 1, [], 0⟩)
        [("X", ⟨[3], [5, 1, 4]⟩)] "pd" = .ok ⟨[6], [7, 5, 1, 4, 7, 7]⟩ ∧
    runLowering expStub (convert_pad
        ⟨"pd", "Pad", [(0, 0)],
         [("pad_width", "(1,2)"), ("mode", "constant"),
          ("constant_value", "7")]⟩ ⟨["X"], [0], [], 11, 1, [], 0⟩)
        [("X", ⟨[3], [5, 1, 4]⟩)] "pd" = .ok ⟨[6], [7, 5, 1, 4, 7, 7]⟩ ∧
    runLowering expStub (convert_clip
        ⟨"cl", "clip", [(0, 0)], [("a_min", "1"), ("a_max", "3")]⟩
        ⟨["X"], [0], [], 9, 1, [], 0⟩)
        [("X", ⟨[3], [5, 1, 4]⟩)] "cl" = .ok ⟨[3], [3, 1, 3]⟩ ∧
    runLowering expStub (convert_clip
        ⟨"cl", "clip", [(0, 0)], [("a_min", "1"), ("a_max", "3")]⟩
        ⟨["X"], [0], [], 11, 1, [], 0⟩)
        [("X", ⟨[3], [5, 1, 4]⟩)] "cl" = .ok ⟨[3], [3, 1, 3]⟩ ∧
    runLowering expStub (convert_dropout
        ⟨"dr", "Dropout", [(0, 0)], [("p", "0.3")]⟩
        ⟨["X"], [0], [], 11, 1, [], 0⟩)
        [("X", ⟨[3], [5, 1, 4]⟩)] "dr" = .ok ⟨[3], [5, 1, 4]⟩ ∧
    runLowering expStub (convert_dropout
        ⟨"dr", "Dropout", [(0, 0)], [("p", "0.3")]⟩
        ⟨["X"], [0], [], 12, 1, [], 0⟩)
        [("X", ⟨[3], [5, 1, 4]⟩)] "dr" = .ok ⟨[3], [5, 1, 4]⟩ ∧
    runLowering expStub (convert_topk
        ⟨"tk", "topk", [(0, 0)],
         [("axis", "-1"), ("k", "2"), ("ret_typ", "both")]⟩
        ⟨["X"], [0], [], 9, 1, [], 0⟩)
        [("X", ⟨[3], [5, 1, 4]⟩)] "tk" = .ok ⟨[2], [5, 4]⟩ ∧
    runLowering expStub (convert_topk
        ⟨"tk", "topk", [(0, 0)],
         [("axis", "-1"), ("k", "2"), ("ret_typ", "both")]⟩
        ⟨["X"], [0], [], 10, 1, [], 0⟩)
        [("X", ⟨[3], [5, 1, 4]⟩)] "tk" = .ok ⟨[2], [5, 4]⟩ := by
  have hP := claim_C3.1
    ⟨"pd", "Pad", [(0, 0)],
     [("pad_width", "(1,2)"), ("mode", "constant"), ("constant_value", "7")]⟩
    ["X"] [0] 1 [] 0 9 11 "X" "(1,2)" [some 1, some 2] [1, 2] "7" 7
    ⟨[3], [5, 1, 4]⟩ (by decide) (by decide) (by decide) (by decide)
    (by decide) (by decide) (by decide) (by decide) (by decide) (by decide)
    (by decide)
  have hC := claim_C3.2.1
    ⟨"cl", "clip", [(0, 0)], [("a_min", "1"), ("a_max", "3")]⟩
    ["X"] [0] 1 [] 0 9 11 "X" "1" "3" 1 3 ⟨[3], [5, 1, 4]⟩
    (by decide) (by decide) (by decide) (by decide) (by decide) (by decide)
    (by decide) (by decide) (by decide)
  have hD := claim_C3.2.2.1
    ⟨"dr", "Dropout", [(0, 0)], [("p", "0.3")]⟩
    ["X"] [0] 1 [] 0 11 12 "X" "0.3" (3/10) ⟨[3], [5, 1, 4]⟩
    (by decide) (by decide) (by decide) (by decide) (by decide)
  have hT := claim_C3.2.2.2
    ⟨"tk", "topk", [(0, 0)],
     [("axis", "-1"), ("k", "2"), ("ret_typ", "both")]⟩
    ["X"] [0] 1 [] 0 9 10 "X" (-1) 2 ⟨[3], [5, 1, 4]⟩
    (by decide) (by decide) (by decide) (by decide) (by decide) (by decide)
    (by decide)
  refine ⟨?_, ?_, ?_, ?_, hD.2.2.1, hD.2.2.2, ?_, ?_⟩
  · rw [hP.2.2.1]
    decide
  · rw [hP.2.2.2]
    decide
  · rw [hC.2.2.1]
    decide
  · rw [hC.2.2.2]
    decide
  · rw [hT.2.2.1]
    decide
  · rw [hT.2.2.2]
    decide

/-- A broadcast [1]-shaped constant reads the same value at every index. -/
theorem tGet_single (c : ℚ) (sh idx : List Nat) :
    tGet ⟨[1], [c]⟩ (bIdx sh [1] idx) = c := by
  unfold bIdx
  simp only [List.length_singleton]
  cases List.drop (sh.length - 1) idx with
  | nil => rfl
  | cons a t => rfl

/-- The Where guard of the masked softmax: substituting `c` exactly where the
masked sum is zero leaves no zero entry in the division denominator. -/
theorem where_guard (rsum eqT w : Tensor) (c : ℚ) (hc : c ≠ 0)
    (hsh : rsum.shape ≠ [])
    (hew : ewBinOp (fun x y => .ok (if x = y then 1 else 0)) rsum
      ⟨[1], [0]⟩ = .ok eqT)
    (hwh : evalWhere eqT ⟨[1], [c]⟩ rsum = .ok w) :
    ∀ v ∈ w.data, v ≠ 0 := by
  unfold ewBinOp at hew
  dsimp only at hew
  rw [bcastShape_one rsum.shape hsh] at hew
  dsimp only at hew
  rw [mapM_except_ok (fun idx =>
    if tGet rsum (bIdx rsum.shape rsum.shape idx)
      = tGet ⟨[1], [0]⟩ (bIdx rsum.shape [1] idx) then 1 else 0)
    (allIdx rsum.shape)] at hew
  dsimp only [exceptBindOk] at hew
  injection hew with hew
  subst hew
  unfold evalWhere at hwh
  dsimp only at hwh
  rw [bcastShape_one rsum.shape hsh] at hwh
  dsimp only at hwh
  rw [bcastShape_self] at hwh
  dsimp only at hwh
  injection hwh with hwh
  subst hwh
  intro v hv
  dsimp only at hv
  rcases List.mem_map.mp hv with ⟨idx, hidx, rfl⟩
  rw [bIdx_self hidx, tGet_single,
    tGet_mk_map (fun idx =>
      if tGet rsum (bIdx rsum.shape rsum.shape idx)
        = tGet ⟨[1], [0]⟩ (bIdx rsum.shape [1] idx) then 1 else 0) hidx,
    bIdx_self hidx, tGet_single]
  by_cases h0 : tGet rsum idx = 0
  · simp only [h0, if_true, if_pos rfl]
    intro habs
    exact absurd habs hc
  · simp only [h0, if_false, if_neg h0]
    simp only [ne_eq, not_false_iff, if_true]
    exact h0

/-- The last four nodes emitted by the masked softmax branch: the masked
re-summation, the zero test, the guarded substitution, and the final
division by the guarded sum. -/
theorem softmax_masked_tail (node : MxNode) (kwargs : Kwargs) (axis : Int)
    (temperature : ℚ) (dtype : NPDtype) (dataN lengthN : String)
    (haxis : pyIntAttrD node.attrs "axis" (-1) = .ok axis)
    (htemp : (match attrsGet node.attrs "temperature" with
      | none => some (1 : ℚ)
      | some s => if s = "None" then some 1 else parsePyFloat s)
        = some temperature)
    (huse : attrsGetD node.attrs "use_length" "None" = "True")
    (htype : tensorTypeToNp kwargs.in_type = some dtype)
    (hres : resolvedInputs node kwargs = [dataN, lengthN]) :
    (okItems (convert_softmax node kwargs).2).reverse.take 4
      = [.node (mkNode "Div"
          [node.name ++ "_mul3_out", node.name ++ "_where_out"]
          [node.name] node.name []),
         .node (mkNode "Where"
          [node.name ++ "_equal1_out", node.name ++ "_1_itype",
           node.name ++ "_rsum1_out"] [node.name ++ "_where_out"] "" []),
         .node (mkNode "Equal"
          [node.name ++ "_rsum1_out", node.name ++ "_0_itype"]
          [node.name ++ "_equal1_out"] "" []),
         .node (mkNode "ReduceSum" [node.name ++ "_mul3_out"]
          [node.name ++ "_rsum1_out"] ""
          [("axes", .aInts [axis]), ("keepdims", .aInt 1)])] := by
  unfold convert_softmax
  simp only [resolvedInputs] at hres
  dsimp only [get_inputs] at hres ⊢
  rw [hres, haxis]
  dsimp only
  rw [htemp]
  dsimp only
  rw [huse, htype]
  dsimp only
  rfl

set_option maxRecDepth 4000 in
unseal Rat.add Rat.mul Rat.inv Rat.sub in
/-- C5: in every masked-softmax lowering the emitted decomposition ends with
the masked re-summation, a zero test on it, a Where that substitutes the
constant 1 exactly where that sum is zero, and a division whose denominator
is the Where output; the substitution leaves no zero entry in the
denominator, so the guarded division never divides by zero; and the full
decomposition of a concrete masked softmax whose first row is entirely
masked (valid length 0) evaluates without a division-by-zero error, the
all-masked row coming out as zeros. -/
theorem claim_C5 :
    (∀ (node : MxNode) (kwargs : Kwargs) (axis : Int) (temperature : ℚ)
       (dtype : NPDtype) (dataN lengthN : String),
      pyIntAttrD node.attrs "axis" (-1) = .ok axis →
      (match attrsGet node.attrs "temperature" with
        | none => some (1 : ℚ)
        | some s => if s = "None" then some 1 else parsePyFloat s)
          = some temperature →
      attrsGetD node.attrs "use_length" "None" = "True" →
      tensorTypeToNp kwargs.in_type = some dtype →
      resolvedInputs node kwargs = [dataN, lengthN] →
      (okItems (convert_softmax node kwargs).2).reverse.take 4
        = [.node (mkNode "Div"
            [node.name ++ "_mul3_out", node.name ++ "_where_out"]
            [node.name] node.name []),
           .node (mkNode "Where"
            [node.name ++ "_equal1_out", node.name ++ "_1_itype",
             node.name ++ "_rsum1_out"] [node.name ++ "_where_out"] "" []),
           .node (mkNode "Equal"
            [node.name ++ "_rsum1_out", node.name ++ "_0_itype"]
            [node.name ++ "_equal1_out"] "" []),
           .node (mkNode "ReduceSum" [node.name ++ "_mul3_out"]
            [node.name ++ "_rsum1_out"] ""
            [("axes", .aInts [axis]), ("keepdims", .aInt 1)])]) ∧
    (∀ (rsum eqT w : Tensor) (c : ℚ),
      c ≠ 0 → rsum.shape ≠ [] →
      ewBinOp (fun x y => .ok (if x = y then 1 else 0)) rsum
        ⟨[1], [0]⟩ = .ok eqT →
      evalWhere eqT ⟨[1], [c]⟩ rsum = .ok w →
      ∀ v ∈ w.data, v ≠ 0) ∧
    runLowering expStub (convert_softmax
      ⟨"sm", "softmax", [(0, 0), (1, 0)],
       [("axis", "1"), ("use_length", "True")]⟩
      ⟨["X", "L"], [0, 1], [], 12, 1, [], 0⟩)
      [("X", ⟨[2, 3], [0, 1, 2, 3, 4, 5]⟩), ("L", ⟨[2], [0, 3]⟩)] "sm"
    = .ok ⟨[2, 3], [0, 0, 0, 10/53, 17/53, 26/53]⟩ := by
  refine ⟨?_, ?_, ?_⟩
  · intro node kwargs axis temperature dtype dataN lengthN h1 h2 h3 h4 h5
    exact softmax_masked_tail node kwargs axis temperature dtype dataN lengthN
      h1 h2 h3 h4 h5
  · intro rsum eqT w c hc hsh hew hwh
    exact where_guard rsum eqT w c hc hsh hew hwh
  · decide

unseal Rat.add Rat.mul Rat.inv Rat.sub in
/-- Witness for C5: the guarded tail of a concrete masked softmax and the
nonzero guarded denominator entry for a re-summation with a zero row. -/
theorem claim_C5_witness :
    (okItems (convert_softmax
      ⟨"sm", "softmax", [(0, 0), (1, 0)],
       [("axis", "1"), ("use_length", "True")]⟩
      ⟨["X", "L"], [0, 1], [], 12, 1, [], 0⟩).2).reverse.take 4
      = [.node (mkNode "Div" ["sm_mul3_out", "sm_where_out"] ["sm"] "sm" []),
         .node (mkNode "Where" ["sm_equal1_out", "sm_1_itype", "sm_rsum1_out"]
           ["sm_where_out"] "" []),
         .node (mkNode "Equal" ["sm_rsum1_out", "sm_0_itype"]
           ["sm_equal1_out"] "" []),
         .node (mkNode "ReduceSum" ["sm_mul3_out"] ["sm_rsum1_out"] ""
           [("axes", .aInts [1]), ("keepdims", .aInt 1)])] ∧
    (53 : ℚ) ≠ 0 := by
  constructor
  · exact claim_C5.1
      ⟨"sm", "softmax", [(0, 0), (1, 0)],
       [("axis", "1"), ("use_length", "True")]⟩
      ⟨["X", "L"], [0, 1], [], 12, 1, [], 0⟩ 1 1 .float32 "X" "L"
      (by decide) (by decide) (by decide) (by decide) (by decide)
  · exact claim_C5.2.1 ⟨[2, 1], [0, 53]⟩ ⟨[2, 1], [1, 0]⟩ ⟨[2, 1], [1, 53]⟩ 1
      (by decide) (by decide) (by decide) (by decide) 53 (by decide)

end OpTrans
